import Mathlib

/-!
# Ledger engine of `fintech.c`

A shallow embedding of the account / transaction engine of `src/fintech.c`
and theorems about it.

Modelling conventions

* The global arrays `accounts[MAX_ACCOUNTS]` and `transactions[MAX_ACCOUNTS * 10]`
  together with their counters `accountCount` and `transactionCount` are the
  lists `Bank.accounts` and `Bank.transactions`: the list is the live prefix
  of the array and its length is the counter.
* `currentUser` (a pointer into `accounts`, or `NULL`) is an optional index.
* `double` amounts come in two embeddings. In the first one (`Fintech.Account`,
  `Fintech.depositMoney`, ...) they are rational numbers and arithmetic is
  exact; it carries the theorems that depend on the guards, the control flow
  and the arrays and not on how a sum is rounded. In the second one
  (`Fintech.Double`, `Fintech.Binary64.depositMoney`, ...) they are binary64
  values with rounding to nearest, infinities and NaN; it carries the
  theorems about the amounts themselves.
* `int` values are unbounded integers; the `enum` types are their integer
  codes, as in C.
* Every function that prompts with `scanf` / `fgets` takes the values it
  would read as arguments; every function that asks the clock takes the
  broken-down time (`struct tm`) as an argument; `rand()` is an argument.
* The `void` functions return the kind of message they print (`Outcome`)
  next to the new state.
-/

namespace Fintech

/-! ## Constants and data model -/

def MAX_ACCOUNTS : Nat := 100
def PIN_LENGTH : Nat := 4
def MIN_AGE : Int := 18

/-- Capacity of the `transactions` array, `MAX_ACCOUNTS * 10`. -/
def MAX_TRANSACTIONS : Nat := MAX_ACCOUNTS * 10

abbrev AccountStatus := Int
def ACTIVE : AccountStatus := 0
def CLOSED : AccountStatus := 1
def FROZEN : AccountStatus := 2

abbrev AccountType := Int
def SAVINGS : AccountType := 0
def CURRENT : AccountType := 1
def INVESTMENT_ACCOUNT : AccountType := 2

abbrev UserRole := Int
def ADMIN : UserRole := 0
def CUSTOMER : UserRole := 1

structure Account where
  accountNumber : Int
  holderName : String
  age : Int
  address : String
  phone : String
  accountType : AccountType
  balance : ℚ
  status : AccountStatus
  loanBalance : ℚ
  investmentBalance : ℚ
  pin : String
  role : UserRole
  deriving DecidableEq

structure Transaction where
  accountNumber : Int
  date : String
  time : String
  description : String
  amount : ℚ
  balanceAfter : ℚ
  deriving DecidableEq

/-- The global state: `accounts` / `accountCount`, `transactions` /
`transactionCount` and `currentUser`. -/
structure Bank where
  accounts : List Account
  transactions : List Transaction
  currentUser : Option Nat
  deriving DecidableEq

/-- The state at program start when no data file exists. -/
def Bank.empty : Bank := ⟨[], [], none⟩

def Bank.accountCount (s : Bank) : Nat := s.accounts.length
def Bank.transactionCount (s : Bank) : Nat := s.transactions.length

/-- Broken-down local time, the fields of `struct tm` the program reads. -/
structure Clock where
  tm_year : Int
  tm_mon : Int
  tm_mday : Int
  tm_hour : Nat
  tm_min : Nat
  deriving DecidableEq

/-- The message kind a function ends with. -/
inductive Outcome where
  | success
  | notLoggedIn
  | invalidAmount
  | invalidPIN
  | accountNotActive
  | accountNotFound
  | destinationInactive
  | insufficientFunds
  | noOutstandingLoan
  | noInvestment
  | capacityExceeded
  | invalidDate
  | underage
  | pinFormatInvalid
  | pinMismatch
  | invalidChoice
  deriving DecidableEq, Repr

/-! ## Helper functions of the source -/

/-- The scan of `isAccountNumberUnique`: `false` at the first account
carrying the number, `true` when the loop ends. -/
def isAccountNumberUnique : List Account → Int → Bool
  | [], _ => true
  | a :: rest, accountNumber =>
    if a.accountNumber = accountNumber then false
    else isAccountNumberUnique rest accountNumber

/-- The loop of `findAccountIndex` started at index `i`. -/
def findAccountIndexFrom : List Account → Nat → Int → Option Nat
  | [], _, _ => none
  | a :: rest, i, accountNumber =>
    if a.accountNumber = accountNumber then some i
    else findAccountIndexFrom rest (i + 1) accountNumber

/-- The first index holding the number; `none` stands for `-1`. -/
def findAccountIndex (accounts : List Account) (accountNumber : Int) : Option Nat :=
  findAccountIndexFrom accounts 0 accountNumber

def verifyPIN (accounts : List Account) (accountNumber : Int) (pin : String) : Bool :=
  match findAccountIndex accounts accountNumber with
  | none => false
  | some index =>
    match accounts[index]? with
    | none => false
    | some a => decide (a.pin = pin)

/-- Two decimal digits, zero padded. -/
def twoDigits (n : Nat) : String :=
  String.mk [Char.ofNat (48 + n / 10 % 10), Char.ofNat (48 + n % 10)]

/-- Four decimal digits, zero padded. -/
def fourDigits (n : Nat) : String :=
  String.mk [Char.ofNat (48 + n / 1000 % 10), Char.ofNat (48 + n / 100 % 10),
    Char.ofNat (48 + n / 10 % 10), Char.ofNat (48 + n % 10)]

/-- The text `strftime(.., "%Y-%m-%d", ..)` writes (years 0..9999). -/
def Clock.dateString (c : Clock) : String :=
  fourDigits (c.tm_year + 1900).toNat ++ "-" ++ twoDigits (c.tm_mon + 1).toNat ++ "-"
    ++ twoDigits c.tm_mday.toNat

/-- The text `strftime(.., "%H:%M", ..)` writes. -/
def Clock.timeString (c : Clock) : String :=
  twoDigits c.tm_hour ++ ":" ++ twoDigits c.tm_min

/-- The loop `for (i = 0; i < transactionCount - 1; i++) transactions[i] = transactions[i + 1];`
from index `i`, with `n` iterations left. -/
def shiftLoop : List Transaction → Nat → Nat → List Transaction
  | ts, _, 0 => ts
  | ts, i, n + 1 =>
    match ts[i + 1]? with
    | some t => shiftLoop (ts.set i t) (i + 1) n
    | none => shiftLoop ts (i + 1) n

/-- The record `addTransaction` builds. -/
def newTransaction (accountNumber : Int) (description : String) (amount balanceAfter : ℚ)
    (now : Clock) : Transaction :=
  { accountNumber := accountNumber
    date := now.dateString
    time := now.timeString
    description := description
    amount := amount
    balanceAfter := balanceAfter }

/-- Model of `addTransaction` on the live prefix of the log: when the count
has reached the capacity the entries are shifted left and the count is
decremented; then the new record is stored at index `transactionCount`. -/
def addTransaction (transactions : List Transaction) (accountNumber : Int)
    (description : String) (amount balanceAfter : ℚ) (now : Clock) : List Transaction :=
  let kept :=
    if transactions.length ≥ MAX_TRANSACTIONS then
      (shiftLoop transactions 0 (transactions.length - 1)).take (transactions.length - 1)
    else transactions
  kept ++ [newTransaction accountNumber description amount balanceAfter now]

def getCurrentYear (now : Clock) : Int := now.tm_year + 1900

/-- Model of `isValidDate`; `%` of C is `Int.tmod`. -/
def isValidDate (day month year : Int) (now : Clock) : Bool :=
  if year < 1900 ∨ year > getCurrentYear now then false
  else if month < 1 ∨ month > 12 then false
  else if day < 1 ∨ day > 31 then false
  else if (month = 4 ∨ month = 6 ∨ month = 9 ∨ month = 11) ∧ day > 30 then false
  else if month = 2 then
    let isLeap : Int :=
      if (year.tmod 4 = 0 ∧ year.tmod 100 ≠ 0) ∨ year.tmod 400 = 0 then 1 else 0
    if day > 28 + isLeap then false else true
  else true

def calculateAge (day month year : Int) (now : Clock) : Int :=
  let currentYear := now.tm_year + 1900
  let currentMonth := now.tm_mon + 1
  let currentDay := now.tm_mday
  let age := currentYear - year
  if currentMonth < month ∨ (currentMonth = month ∧ currentDay < day) then age - 1 else age

/-! ## Registration, session and administration -/

/-- The values `registerAccount` reads, in prompt order, and the value
`rand()` returns. -/
structure Registration where
  holderName : String
  day : Int
  month : Int
  year : Int
  address : String
  phone : String
  typeChoice : Int
  initialDeposit : ℚ
  pin : String
  confirmPin : String
  rand : Nat

/-- Model of `registerAccount`. -/
def registerAccount (s : Bank) (r : Registration) (now : Clock) : Outcome × Bank :=
  if s.accounts.length ≥ MAX_ACCOUNTS then (.capacityExceeded, s)
  else if isValidDate r.day r.month r.year now = false then (.invalidDate, s)
  else
    let age := calculateAge r.day r.month r.year now
    if age < MIN_AGE then (.underage, s)
    else
      let accountType : AccountType :=
        if r.typeChoice = 1 then SAVINGS
        else if r.typeChoice = 2 then CURRENT
        else if r.typeChoice = 3 then INVESTMENT_ACCOUNT
        else SAVINGS
      let initialDeposit : ℚ := if r.initialDeposit < 0 then 0 else r.initialDeposit
      if r.pin.length ≠ PIN_LENGTH then (.pinFormatInvalid, s)
      else if r.pin ≠ r.confirmPin then (.pinMismatch, s)
      else
        let newAccount : Account :=
          { accountNumber := 100000 + (r.rand : Int) % 900000
            holderName := r.holderName
            age := age
            address := r.address
            phone := r.phone
            accountType := accountType
            balance := initialDeposit
            status := ACTIVE
            loanBalance := 0
            investmentBalance := 0
            pin := r.pin
            role := CUSTOMER }
        let accounts := s.accounts ++ [newAccount]
        let transactions :=
          if initialDeposit > 0 then
            addTransaction s.transactions newAccount.accountNumber "Initial Deposit"
              initialDeposit newAccount.balance now
          else s.transactions
        (.success, { s with accounts := accounts, transactions := transactions })

/-- Case 2 of `mainMenu`: customer login. -/
def login (s : Bank) (accountNumber : Int) (pin : String) : Outcome × Bank :=
  if verifyPIN s.accounts accountNumber pin then
    match findAccountIndex s.accounts accountNumber with
    | some index => (.success, { s with currentUser := some index })
    | none => (.success, s)
  else (.invalidPIN, s)

/-- Choice 0 of `customerMenu` and `adminMenu`. -/
def logout (s : Bank) : Bank := { s with currentUser := none }

/-- Model of `updateAccountStatus`. -/
def updateAccountStatus (s : Bank) (accountNumber statusChoice : Int) : Outcome × Bank :=
  match findAccountIndex s.accounts accountNumber with
  | none => (.accountNotFound, s)
  | some index =>
    match s.accounts[index]? with
    | none => (.accountNotFound, s)
    | some a =>
      if statusChoice = 1 then
        (.success, { s with accounts := s.accounts.set index { a with status := ACTIVE } })
      else if statusChoice = 2 then
        (.success, { s with accounts := s.accounts.set index { a with status := CLOSED } })
      else if statusChoice = 3 then
        (.success, { s with accounts := s.accounts.set index { a with status := FROZEN } })
      else (.invalidChoice, s)

/-- Model of `changePIN`. -/
def changePIN (s : Bank) (oldPin newPin confirmPin : String) : Outcome × Bank :=
  match s.currentUser with
  | none => (.notLoggedIn, s)
  | some cur =>
    match s.accounts[cur]? with
    | none => (.notLoggedIn, s)
    | some user =>
      if user.pin ≠ oldPin then (.invalidPIN, s)
      else if newPin.length ≠ PIN_LENGTH then (.pinFormatInvalid, s)
      else if newPin ≠ confirmPin then (.pinMismatch, s)
      else (.success, { s with accounts := s.accounts.set cur { user with pin := newPin } })

/-! ## The money operations -/

/-- Model of `depositMoney`. -/
def depositMoney (s : Bank) (amount : ℚ) (pin : String) (now : Clock) : Outcome × Bank :=
  match s.currentUser with
  | none => (.notLoggedIn, s)
  | some cur =>
    match s.accounts[cur]? with
    | none => (.notLoggedIn, s)
    | some user =>
      if amount ≤ 0 then (.invalidAmount, s)
      else if user.pin ≠ pin then (.invalidPIN, s)
      else if user.status ≠ ACTIVE then (.accountNotActive, s)
      else
        let user1 := { user with balance := user.balance + amount }
        (.success,
          { s with
            accounts := s.accounts.set cur user1
            transactions :=
              addTransaction s.transactions user1.accountNumber "Deposit" amount
                user1.balance now })

/-- Model of `withdrawMoney`. -/
def withdrawMoney (s : Bank) (amount : ℚ) (pin : String) (now : Clock) : Outcome × Bank :=
  match s.currentUser with
  | none => (.notLoggedIn, s)
  | some cur =>
    match s.accounts[cur]? with
    | none => (.notLoggedIn, s)
    | some user =>
      if amount ≤ 0 then (.invalidAmount, s)
      else if user.pin ≠ pin then (.invalidPIN, s)
      else if user.status ≠ ACTIVE then (.accountNotActive, s)
      else if amount > user.balance then (.insufficientFunds, s)
      else
        let user1 := { user with balance := user.balance - amount }
        (.success,
          { s with
            accounts := s.accounts.set cur user1
            transactions :=
              addTransaction s.transactions user1.accountNumber "Withdrawal" (-amount)
                user1.balance now })

/-- The balance stored at an index of the array. -/
def balanceAt (accounts : List Account) (i : Nat) : ℚ :=
  match accounts[i]? with
  | some a => a.balance
  | none => 0

/-- The statement `accounts[i].balance += amount`. -/
def creditAt (accounts : List Account) (i : Nat) (amount : ℚ) : List Account :=
  match accounts[i]? with
  | some a => accounts.set i { a with balance := a.balance + amount }
  | none => accounts

/-- Model of `transferMoney`. The two balance updates run one after the
other on the array, and both records read the balances after both updates. -/
def transferMoney (s : Bank) (toAccount : Int) (amount : ℚ) (pin : String) (now : Clock) :
    Outcome × Bank :=
  match s.currentUser with
  | none => (.notLoggedIn, s)
  | some cur =>
    match s.accounts[cur]? with
    | none => (.notLoggedIn, s)
    | some user =>
      match findAccountIndex s.accounts toAccount with
      | none => (.accountNotFound, s)
      | some toIndex =>
        match s.accounts[toIndex]? with
        | none => (.accountNotFound, s)
        | some dest =>
          if amount ≤ 0 then (.invalidAmount, s)
          else if user.pin ≠ pin then (.invalidPIN, s)
          else if user.status ≠ ACTIVE then (.accountNotActive, s)
          else if dest.status ≠ ACTIVE then (.destinationInactive, s)
          else if amount > user.balance then (.insufficientFunds, s)
          else
            let accounts1 := s.accounts.set cur { user with balance := user.balance - amount }
            let accounts2 := creditAt accounts1 toIndex amount
            let transactions1 :=
              addTransaction s.transactions user.accountNumber "Transfer Out" (-amount)
                (balanceAt accounts2 cur) now
            let transactions2 :=
              addTransaction transactions1 toAccount "Transfer In" amount
                (balanceAt accounts2 toIndex) now
            (.success, { s with accounts := accounts2, transactions := transactions2 })

/-- Model of `applyForLoan`. -/
def applyForLoan (s : Bank) (amount : ℚ) (pin : String) (now : Clock) : Outcome × Bank :=
  match s.currentUser with
  | none => (.notLoggedIn, s)
  | some cur =>
    match s.accounts[cur]? with
    | none => (.notLoggedIn, s)
    | some user =>
      if amount ≤ 0 then (.invalidAmount, s)
      else if user.pin ≠ pin then (.invalidPIN, s)
      else if user.status ≠ ACTIVE then (.accountNotActive, s)
      else
        let user1 :=
          { user with balance := user.balance + amount, loanBalance := user.loanBalance + amount }
        (.success,
          { s with
            accounts := s.accounts.set cur user1
            transactions :=
              addTransaction s.transactions user1.accountNumber "Loan Disbursement" amount
                user1.balance now })

/-- Model of `repayLoan`. The funds test reads the amount as entered; the
clamp to the loan balance comes after it. -/
def repayLoan (s : Bank) (amount : ℚ) (pin : String) (now : Clock) : Outcome × Bank :=
  match s.currentUser with
  | none => (.notLoggedIn, s)
  | some cur =>
    match s.accounts[cur]? with
    | none => (.notLoggedIn, s)
    | some user =>
      if user.loanBalance ≤ 0 then (.noOutstandingLoan, s)
      else if amount ≤ 0 then (.invalidAmount, s)
      else if user.pin ≠ pin then (.invalidPIN, s)
      else if amount > user.balance then (.insufficientFunds, s)
      else
        let amount1 := if amount > user.loanBalance then user.loanBalance else amount
        let user1 :=
          { user with
            balance := user.balance - amount1, loanBalance := user.loanBalance - amount1 }
        (.success,
          { s with
            accounts := s.accounts.set cur user1
            transactions :=
              addTransaction s.transactions user1.accountNumber "Loan Repayment" (-amount1)
                user1.balance now })

/-- Model of `investMoney`. -/
def investMoney (s : Bank) (amount : ℚ) (pin : String) (now : Clock) : Outcome × Bank :=
  match s.currentUser with
  | none => (.notLoggedIn, s)
  | some cur =>
    match s.accounts[cur]? with
    | none => (.notLoggedIn, s)
    | some user =>
      if amount ≤ 0 then (.invalidAmount, s)
      else if user.pin ≠ pin then (.invalidPIN, s)
      else if user.status ≠ ACTIVE then (.accountNotActive, s)
      else if amount > user.balance then (.insufficientFunds, s)
      else
        let user1 :=
          { user with
            balance := user.balance - amount
            investmentBalance := user.investmentBalance + amount }
        (.success,
          { s with
            accounts := s.accounts.set cur user1
            transactions :=
              addTransaction s.transactions user1.accountNumber "Investment" (-amount)
                user1.balance now })

/-- Model of `withdrawInvestment`. -/
def withdrawInvestment (s : Bank) (amount : ℚ) (pin : String) (now : Clock) : Outcome × Bank :=
  match s.currentUser with
  | none => (.notLoggedIn, s)
  | some cur =>
    match s.accounts[cur]? with
    | none => (.notLoggedIn, s)
    | some user =>
      if user.investmentBalance ≤ 0 then (.noInvestment, s)
      else if amount ≤ 0 then (.invalidAmount, s)
      else if user.pin ≠ pin then (.invalidPIN, s)
      else if amount > user.investmentBalance then (.insufficientFunds, s)
      else
        let user1 :=
          { user with
            balance := user.balance + amount
            investmentBalance := user.investmentBalance - amount }
        (.success,
          { s with
            accounts := s.accounts.set cur user1
            transactions :=
              addTransaction s.transactions user1.accountNumber "Investment Withdrawal" amount
                user1.balance now })

/-! ## Runs of the program -/

/-- One menu action together with the values typed for it and the clock
reading at that moment. -/
inductive Action where
  | register (r : Registration) (now : Clock)
  | login (accountNumber : Int) (pin : String)
  | logout
  | updateStatus (accountNumber statusChoice : Int)
  | changePIN (oldPin newPin confirmPin : String)
  | deposit (amount : ℚ) (pin : String) (now : Clock)
  | withdraw (amount : ℚ) (pin : String) (now : Clock)
  | transfer (toAccount : Int) (amount : ℚ) (pin : String) (now : Clock)
  | applyLoan (amount : ℚ) (pin : String) (now : Clock)
  | repay (amount : ℚ) (pin : String) (now : Clock)
  | invest (amount : ℚ) (pin : String) (now : Clock)
  | divest (amount : ℚ) (pin : String) (now : Clock)

/-- The state after one action. -/
def step (s : Bank) : Action → Bank
  | .register r now => (registerAccount s r now).2
  | .login n pin => (login s n pin).2
  | .logout => logout s
  | .updateStatus n c => (updateAccountStatus s n c).2
  | .changePIN o n c => (changePIN s o n c).2
  | .deposit x pin now => (depositMoney s x pin now).2
  | .withdraw x pin now => (withdrawMoney s x pin now).2
  | .transfer dst x pin now => (transferMoney s dst x pin now).2
  | .applyLoan x pin now => (applyForLoan s x pin now).2
  | .repay x pin now => (repayLoan s x pin now).2
  | .invest x pin now => (investMoney s x pin now).2
  | .divest x pin now => (withdrawInvestment s x pin now).2

/-- The state after a sequence of actions. -/
def run (s : Bank) (acts : List Action) : Bank := acts.foldl step s

/-! ## The data file

The file is a list of characters. `saveToFile` is the sequence of `fprintf`
calls of the source; `loadFromFile` is its sequence of `fscanf` calls run on
a freshly started program (all globals zero). A conversion that fails
leaves its target at the zero value and the input where it stood. The
conversions cover the number formats `saveToFile` can write (a sign, digits,
a decimal point); array bounds are not modelled. -/

/-- The `isspace` class of the C locale. -/
def isSpace (c : Char) : Bool :=
  c = ' ' || c = '\n' || c = '\t' || c = '\r' || c = Char.ofNat 11 || c = Char.ofNat 12

def isDigit (c : Char) : Bool := decide ('0' ≤ c) && decide (c ≤ '9')

/-- The text of `%d`. -/
def printInt (n : Int) : List Char :=
  if n < 0 then '-' :: Nat.toDigits 10 n.natAbs else Nat.toDigits 10 n.natAbs

/-- The hundredths nearest to the absolute value, ties to even. -/
def roundCents (q : ℚ) : Nat :=
  let n := q.num.natAbs * 100
  let f := n / q.den
  let r := n % q.den
  if 2 * r < q.den then f
  else if 2 * r > q.den then f + 1
  else if f % 2 = 0 then f
  else f + 1

/-- The text of `%.2f`. -/
def printMoney (q : ℚ) : List Char :=
  let c := roundCents q
  (if q < 0 then ['-'] else []) ++ Nat.toDigits 10 (c / 100)
    ++ ['.', Nat.digitChar (c / 10 % 10), Nat.digitChar (c % 10)]

/-- A value followed by the newline of the format string. -/
def line (cs : List Char) : List Char := cs ++ ['\n']

/-- The twelve `fprintf` calls for one account. -/
def writeAccount (a : Account) : List Char :=
  line (printInt a.accountNumber) ++ line a.holderName.toList ++ line (printInt a.age)
    ++ line a.address.toList ++ line a.phone.toList ++ line (printInt a.accountType)
    ++ line (printMoney a.balance) ++ line (printInt a.status)
    ++ line (printMoney a.loanBalance) ++ line (printMoney a.investmentBalance)
    ++ line a.pin.toList ++ line (printInt a.role)

/-- The six `fprintf` calls for one transaction. -/
def writeTransaction (t : Transaction) : List Char :=
  line (printInt t.accountNumber) ++ line t.date.toList ++ line t.time.toList
    ++ line t.description.toList ++ line (printMoney t.amount)
    ++ line (printMoney t.balanceAfter)

def writeAccounts : List Account → List Char
  | [] => []
  | a :: rest => writeAccount a ++ writeAccounts rest

def writeTransactions : List Transaction → List Char
  | [] => []
  | t :: rest => writeTransaction t ++ writeTransactions rest

/-- Model of `saveToFile`: the text written to the data file. -/
def saveToFile (s : Bank) : List Char :=
  line (printInt s.accounts.length) ++ line (printInt s.transactions.length)
    ++ writeAccounts s.accounts ++ writeTransactions s.transactions

/-- Leading white space is skipped by every conversion used here. -/
def skipSpace : List Char → List Char
  | [] => []
  | c :: cs => if isSpace c then skipSpace cs else c :: cs

/-- The number a run of decimal digits denotes. -/
def digitsValue (ds : List Char) : Nat :=
  ds.foldl (fun acc c => 10 * acc + (c.toNat - 48)) 0

/-- The conversion `%d`: optional sign, then at least one digit. -/
def scanInt (input : List Char) : Option Int × List Char :=
  let start := skipSpace input
  let signed : Bool × List Char :=
    match start with
    | '-' :: rest => (true, rest)
    | '+' :: rest => (false, rest)
    | _ => (false, start)
  let parts := signed.2.span isDigit
  if parts.1 = [] then (none, start)
  else if signed.1 then (some (-(digitsValue parts.1 : Int)), parts.2)
  else (some (digitsValue parts.1 : Int), parts.2)

/-- The conversion `%lf` on decimal text: optional sign, digits, and an
optional point followed by digits; at least one digit is required. -/
def scanDouble (input : List Char) : Option ℚ × List Char :=
  let start := skipSpace input
  let signed : Bool × List Char :=
    match start with
    | '-' :: rest => (true, rest)
    | '+' :: rest => (false, rest)
    | _ => (false, start)
  let whole := signed.2.span isDigit
  let fraction : List Char × List Char :=
    match whole.2 with
    | '.' :: rest => rest.span isDigit
    | _ => ([], whole.2)
  if whole.1 = [] ∧ fraction.1 = [] then (none, start)
  else
    let value : ℚ :=
      (digitsValue whole.1 : ℚ) + (digitsValue fraction.1 : ℚ) / (10 : ℚ) ^ fraction.1.length
    (some (if signed.1 then -value else value), fraction.2)

/-- The conversion `%s`: a run of characters that are not white space. -/
def scanWord (input : List Char) : Option String × List Char :=
  let start := skipSpace input
  let parts := start.span (fun c => !isSpace c)
  if parts.1 = [] then (none, start) else (some (String.mk parts.1), parts.2)

/-- The directive ` %[^\n]`: white space is skipped, then a non-empty run of
characters other than the newline is stored. -/
def scanLine (input : List Char) : Option String × List Char :=
  let start := skipSpace input
  let parts := start.span (fun c => c != '\n')
  if parts.1 = [] then (none, start) else (some (String.mk parts.1), parts.2)

/-- The twelve `fscanf` calls for one account, into a zeroed slot. -/
def readAccount (input : List Char) : Account × List Char :=
  let r1 := scanInt input
  let r2 := scanLine r1.2
  let r3 := scanInt r2.2
  let r4 := scanLine r3.2
  let r5 := scanWord r4.2
  let r6 := scanInt r5.2
  let r7 := scanDouble r6.2
  let r8 := scanInt r7.2
  let r9 := scanDouble r8.2
  let r10 := scanDouble r9.2
  let r11 := scanWord r10.2
  let r12 := scanInt r11.2
  ({ accountNumber := r1.1.getD 0
     holderName := r2.1.getD ""
     age := r3.1.getD 0
     address := r4.1.getD ""
     phone := r5.1.getD ""
     accountType := r6.1.getD 0
     balance := r7.1.getD 0
     status := r8.1.getD 0
     loanBalance := r9.1.getD 0
     investmentBalance := r10.1.getD 0
     pin := r11.1.getD ""
     role := r12.1.getD 0 }, r12.2)

/-- The six `fscanf` calls for one transaction, into a zeroed slot. -/
def readTransaction (input : List Char) : Transaction × List Char :=
  let r1 := scanInt input
  let r2 := scanWord r1.2
  let r3 := scanWord r2.2
  let r4 := scanLine r3.2
  let r5 := scanDouble r4.2
  let r6 := scanDouble r5.2
  ({ accountNumber := r1.1.getD 0
     date := r2.1.getD ""
     time := r3.1.getD ""
     description := r4.1.getD ""
     amount := r5.1.getD 0
     balanceAfter := r6.1.getD 0 }, r6.2)

/-- The loop `for (i = 0; i < accountCount; i++)` of `loadFromFile`. -/
def readAccounts : Nat → List Char → List Account × List Char
  | 0, input => ([], input)
  | n + 1, input =>
    let first := readAccount input
    let others := readAccounts n first.2
    (first.1 :: others.1, others.2)

/-- The loop `for (i = 0; i < transactionCount; i++)` of `loadFromFile`. -/
def readTransactions : Nat → List Char → List Transaction × List Char
  | 0, input => ([], input)
  | n + 1, input =>
    let first := readTransaction input
    let others := readTransactions n first.2
    (first.1 :: others.1, others.2)

/-- Model of `loadFromFile` at program start, for a data file that exists:
the two counts, then that many accounts, then that many transactions. -/
def loadFromFile (file : List Char) : Bank :=
  let c1 := scanInt file
  let c2 := scanInt c1.2
  let accounts := readAccounts (c1.1.getD 0).toNat c2.2
  let transactions := readTransactions (c2.1.getD 0).toNat accounts.2
  ⟨accounts.1, transactions.1, none⟩

/-! ## Predicates used by the theorems -/

/-- The records `addTransaction` keeps before it stores the new one: all of
them below the capacity, all but the oldest once the capacity is reached. -/
def keptRecords (ts : List Transaction) : List Transaction :=
  if ts.length ≥ MAX_TRANSACTIONS then ts.tail else ts

/-- The two accounts agree on every field other than the three monetary
ones: account number, holder name, age, address, phone, account type,
status, PIN and role. -/
def Account.SameProfile (a b : Account) : Prop :=
  a.accountNumber = b.accountNumber ∧ a.holderName = b.holderName ∧ a.age = b.age
    ∧ a.address = b.address ∧ a.phone = b.phone ∧ a.accountType = b.accountType
    ∧ a.status = b.status ∧ a.pin = b.pin ∧ a.role = b.role

instance (a b : Account) : Decidable (a.SameProfile b) := by
  unfold Account.SameProfile; infer_instance

/-- The seven money operations among the actions. -/
def Action.isMoney : Action → Bool
  | .deposit _ _ _ => true
  | .withdraw _ _ _ => true
  | .transfer _ _ _ _ => true
  | .applyLoan _ _ _ => true
  | .repay _ _ _ => true
  | .invest _ _ _ => true
  | .divest _ _ _ => true
  | _ => false

/-- The destination number of a transfer. -/
def Action.destination : Action → Option Int
  | .transfer dst _ _ _ => some dst
  | _ => none

/-- The array slots a money operation may write: the slot of `currentUser`
and, for a transfer, the slot `findAccountIndex` gives for the destination
number. -/
def touches (s : Bank) (a : Action) (i : Nat) : Prop :=
  s.currentUser = some i
    ∨ ∃ dst : Int, a.destination = some dst ∧ findAccountIndex s.accounts dst = some i

/-- Every slot of `l` is still filled in `l'`, by an account with the same
profile, and by the same account when the slot is not a touched one. -/
def FrameAt (l l' : List Account) (touched : Nat → Prop) : Prop :=
  ∀ (i : Nat) (acc : Account), l[i]? = some acc →
    ∃ acc' : Account, l'[i]? = some acc' ∧ acc.SameProfile acc' ∧ (¬ touched i → acc' = acc)

/-! ## The calendar in the words of the specification -/

/-- Leap years as the specification words them: divisible by 4 and not by
100, or divisible by 400. -/
def isLeapYear (year : Int) : Prop := (year % 4 = 0 ∧ year % 100 ≠ 0) ∨ year % 400 = 0

instance (year : Int) : Decidable (isLeapYear year) := by
  unfold isLeapYear; infer_instance

/-- Length of a month of the Gregorian calendar. -/
def daysInMonth (month year : Int) : Int :=
  if month = 2 then (if isLeapYear year then 29 else 28)
  else if month = 4 ∨ month = 6 ∨ month = 9 ∨ month = 11 then 30
  else 31

/-- A real calendar date in the words of the specification: month 1..12 and
day within that month's length. -/
def isCalendarDate (day month year : Int) : Prop :=
  1 ≤ month ∧ month ≤ 12 ∧ 1 ≤ day ∧ day ≤ daysInMonth month year

instance (day month year : Int) : Decidable (isCalendarDate day month year) := by
  unfold isCalendarDate; infer_instance

/-- The date is no later than the current date of the clock. -/
def notAfterToday (day month year : Int) (now : Clock) : Prop :=
  year < now.tm_year + 1900
    ∨ (year = now.tm_year + 1900
        ∧ (month < now.tm_mon + 1 ∨ (month = now.tm_mon + 1 ∧ day ≤ now.tm_mday)))

instance (day month year : Int) (now : Clock) : Decidable (notAfterToday day month year now) := by
  unfold notAfterToday; infer_instance

/-- The birthday `(day, month)` has not yet occurred in the current year. -/
def birthdayStillAhead (day month : Int) (now : Clock) : Prop :=
  now.tm_mon + 1 < month ∨ (now.tm_mon + 1 = month ∧ now.tm_mday < day)

instance (day month : Int) (now : Clock) : Decidable (birthdayStillAhead day month now) := by
  unfold birthdayStillAhead; infer_instance

/-- Full years elapsed in the words of the specification: current year minus
birth year, less one when the birthday has not yet occurred this year. -/
def fullYearsElapsed (day month year : Int) (now : Clock) : Int :=
  (now.tm_year + 1900 - year) - (if birthdayStillAhead day month now then 1 else 0)

/-! ## Amounts in binary64

The `double` of the source, for the claims that depend on its arithmetic.
A finite value is an integer count of the smallest positive `double`,
`2 ^ (-1074)`: every finite binary64 value is such a multiple, of magnitude
below `2 ^ 2098` and with at most 53 significant binary digits. Sums and
differences are computed exactly on these integers and then rounded to 53
significant digits, ties to even, overflowing to an infinity, as the
hardware does in the default rounding mode. The two zeros are one value;
nothing in the program tells them apart except the text `-0.00`. -/

/-- Binary digits of `n`, counted with `fuel` halvings. -/
def bitsAux : Nat → Nat → Nat
  | 0, _ => 0
  | fuel + 1, n => if n = 0 then 0 else bitsAux fuel (n / 2) + 1

/-- The number of binary digits of `n` (0 for 0). -/
def bitLength (n : Nat) : Nat := bitsAux n n

/-- Rounding to 53 significant binary digits, to nearest, ties to even. -/
def roundNat (n : Nat) : Nat :=
  if bitLength n ≤ 53 then n
  else
    let sh := bitLength n - 53
    let q := n / 2 ^ sh
    let r := n % 2 ^ sh
    let half := 2 ^ (sh - 1)
    if r < half ∨ (r = half ∧ q % 2 = 0) then q * 2 ^ sh else (q + 1) * 2 ^ sh

/-- A binary64 value: `finite n` stands for `n * 2 ^ (-1074)`. -/
inductive Double where
  | finite (n : Int)
  | posInf
  | negInf
  | nan
  deriving DecidableEq

namespace Double

/-- One, counted in units of `2 ^ (-1074)`. -/
@[irreducible] def scale : Nat := 2 ^ 1074

/-- The magnitude `2 ^ 1024`, in units of `2 ^ (-1074)`: a rounded result
that reaches it overflows. -/
@[irreducible] def overflow : Nat := 2 ^ 2098

/-- The binary64 value nearest to the exact `n * 2 ^ (-1074)`. -/
def round (n : Int) : Double :=
  if roundNat n.natAbs ≥ overflow then (if n < 0 then negInf else posInf)
  else finite (if n < 0 then -(roundNat n.natAbs : Int) else (roundNat n.natAbs : Int))

/-- The integer nearest to `num / den` when that has at most 53 binary
digits, and otherwise `num / den` rounded to 53 significant digits; ties to
even. -/
def roundQuotient (num den : Nat) : Nat :=
  let f := num / den
  let rem := num % den
  if bitLength f ≤ 53 then
    (if 2 * rem < den ∨ (2 * rem = den ∧ f % 2 = 0) then f else f + 1)
  else
    let sh := bitLength f - 53
    let q := f / 2 ^ sh
    let r := f % 2 ^ sh
    let half := 2 ^ (sh - 1)
    if r < half ∨ (r = half ∧ rem = 0 ∧ q % 2 = 0) then q * 2 ^ sh else (q + 1) * 2 ^ sh

/-- The value `scanf("%lf")` stores for a decimal text denoting `q`: the
binary64 value nearest to `q`. -/
def ofRat (q : ℚ) : Double :=
  if roundNat (roundQuotient (q.num.natAbs * scale) q.den) ≥ overflow then
    (if q < 0 then negInf else posInf)
  else
    finite
      (if q < 0 then -(roundNat (roundQuotient (q.num.natAbs * scale) q.den) : Int)
       else (roundNat (roundQuotient (q.num.natAbs * scale) q.den) : Int))

/-- The value of an integer constant of the source. -/
def ofNat (k : Nat) : Double := round ((k : Int) * (scale : Int))

instance (k : Nat) : OfNat Double k := ⟨ofNat k⟩

/-- Unary minus. -/
def neg : Double → Double
  | finite n => finite (-n)
  | posInf => negInf
  | negInf => posInf
  | nan => nan

/-- The sum of C: exact on finite values and then rounded; an infinity
absorbs finite values; opposite infinities and NaN give NaN. -/
def add : Double → Double → Double
  | finite a, finite b => round (a + b)
  | finite _, posInf => posInf
  | finite _, negInf => negInf
  | posInf, finite _ => posInf
  | posInf, posInf => posInf
  | negInf, finite _ => negInf
  | negInf, negInf => negInf
  | _, _ => nan

/-- The difference of C. -/
def sub (a b : Double) : Double := add a (neg b)

instance : Neg Double := ⟨neg⟩
instance : Add Double := ⟨add⟩
instance : Sub Double := ⟨sub⟩

/-- The comparison `<` of C: false as soon as an operand is NaN. -/
def lt : Double → Double → Bool
  | finite a, finite b => decide (a < b)
  | finite _, posInf => true
  | negInf, finite _ => true
  | negInf, posInf => true
  | _, _ => false

/-- The comparison `<=` of C: false as soon as an operand is NaN. -/
def le : Double → Double → Bool
  | finite a, finite b => decide (a ≤ b)
  | finite _, posInf => true
  | negInf, finite _ => true
  | negInf, posInf => true
  | posInf, posInf => true
  | negInf, negInf => true
  | _, _ => false

instance : LT Double := ⟨fun a b => lt a b = true⟩
instance : LE Double := ⟨fun a b => le a b = true⟩

instance (a b : Double) : Decidable (a < b) := inferInstanceAs (Decidable (lt a b = true))
instance (a b : Double) : Decidable (a ≤ b) := inferInstanceAs (Decidable (le a b = true))

/-- The integer `n` of a finite value `n * 2 ^ (-1074)`; 0 for the others. -/
def units : Double → Int
  | finite n => n
  | _ => 0

/-- The value is one a `double` can hold: an infinity, NaN, or a finite
value that rounding leaves alone. -/
def Representable : Double → Prop
  | finite n => roundNat n.natAbs = n.natAbs ∧ n.natAbs < overflow
  | _ => True

instance (x : Double) : Decidable x.Representable := by
  cases x <;> unfold Representable <;> infer_instance

end Double

/-! ## The ledger over binary64

The data model and the money operations once more, line for line as above,
with `Double` where the source has `double`. -/

namespace Binary64

structure Account where
  accountNumber : Int
  holderName : String
  age : Int
  address : String
  phone : String
  accountType : AccountType
  balance : Double
  status : AccountStatus
  loanBalance : Double
  investmentBalance : Double
  pin : String
  role : UserRole
  deriving DecidableEq

structure Transaction where
  accountNumber : Int
  date : String
  time : String
  description : String
  amount : Double
  balanceAfter : Double
  deriving DecidableEq

/-- The global state: `accounts` / `accountCount`, `transactions` /
`transactionCount` and `currentUser`. -/
structure Bank where
  accounts : List Account
  transactions : List Transaction
  currentUser : Option Nat
  deriving DecidableEq

/-- The state at program start when no data file exists. -/
def Bank.empty : Bank := ⟨[], [], none⟩

/-- The loop of `findAccountIndex` started at index `i`. -/
def findAccountIndexFrom : List Account → Nat → Int → Option Nat
  | [], _, _ => none
  | a :: rest, i, accountNumber =>
    if a.accountNumber = accountNumber then some i
    else findAccountIndexFrom rest (i + 1) accountNumber

/-- The first index holding the number; `none` stands for `-1`. -/
def findAccountIndex (accounts : List Account) (accountNumber : Int) : Option Nat :=
  findAccountIndexFrom accounts 0 accountNumber

def verifyPIN (accounts : List Account) (accountNumber : Int) (pin : String) : Bool :=
  match findAccountIndex accounts accountNumber with
  | none => false
  | some index =>
    match accounts[index]? with
    | none => false
    | some a => decide (a.pin = pin)

/-- The loop `for (i = 0; i < transactionCount - 1; i++) transactions[i] = transactions[i + 1];`
from index `i`, with `n` iterations left. -/
def shiftLoop : List Transaction → Nat → Nat → List Transaction
  | ts, _, 0 => ts
  | ts, i, n + 1 =>
    match ts[i + 1]? with
    | some t => shiftLoop (ts.set i t) (i + 1) n
    | none => shiftLoop ts (i + 1) n

/-- The record `addTransaction` builds. -/
def newTransaction (accountNumber : Int) (description : String) (amount balanceAfter : Double)
    (now : Clock) : Transaction :=
  { accountNumber := accountNumber
    date := now.dateString
    time := now.timeString
    description := description
    amount := amount
    balanceAfter := balanceAfter }

/-- Model of `addTransaction` on the live prefix of the log. -/
def addTransaction (transactions : List Transaction) (accountNumber : Int)
    (description : String) (amount balanceAfter : Double) (now : Clock) : List Transaction :=
  let kept :=
    if transactions.length ≥ MAX_TRANSACTIONS then
      (shiftLoop transactions 0 (transactions.length - 1)).take (transactions.length - 1)
    else transactions
  kept ++ [newTransaction accountNumber description amount balanceAfter now]

/-- The records `addTransaction` keeps before it stores the new one: all of
them below the capacity, all but the oldest once the capacity is reached. -/
def keptRecords (ts : List Transaction) : List Transaction :=
  if ts.length ≥ MAX_TRANSACTIONS then ts.tail else ts

/-- The values `registerAccount` reads, in prompt order, and the value
`rand()` returns. -/
structure Registration where
  holderName : String
  day : Int
  month : Int
  year : Int
  address : String
  phone : String
  typeChoice : Int
  initialDeposit : Double
  pin : String
  confirmPin : String
  rand : Nat

/-- Model of `registerAccount`; `strlen` counts the bytes of the PIN. -/
def registerAccount (s : Bank) (r : Registration) (now : Clock) : Outcome × Bank :=
  if s.accounts.length ≥ MAX_ACCOUNTS then (.capacityExceeded, s)
  else if isValidDate r.day r.month r.year now = false then (.invalidDate, s)
  else
    let age := calculateAge r.day r.month r.year now
    if age < MIN_AGE then (.underage, s)
    else
      let accountType : AccountType :=
        if r.typeChoice = 1 then SAVINGS
        else if r.typeChoice = 2 then CURRENT
        else if r.typeChoice = 3 then INVESTMENT_ACCOUNT
        else SAVINGS
      let initialDeposit : Double := if r.initialDeposit < 0 then 0 else r.initialDeposit
      if r.pin.utf8ByteSize ≠ PIN_LENGTH then (.pinFormatInvalid, s)
      else if r.pin ≠ r.confirmPin then (.pinMismatch, s)
      else
        let newAccount : Account :=
          { accountNumber := 100000 + (r.rand : Int) % 900000
            holderName := r.holderName
            age := age
            address := r.address
            phone := r.phone
            accountType := accountType
            balance := initialDeposit
            status := ACTIVE
            loanBalance := 0
            investmentBalance := 0
            pin := r.pin
            role := CUSTOMER }
        let accounts := s.accounts ++ [newAccount]
        let transactions :=
          if initialDeposit > 0 then
            addTransaction s.transactions newAccount.accountNumber "Initial Deposit"
              initialDeposit newAccount.balance now
          else s.transactions
        (.success, { s with accounts := accounts, transactions := transactions })

/-- Case 2 of `mainMenu`: customer login. -/
def login (s : Bank) (accountNumber : Int) (pin : String) : Outcome × Bank :=
  if verifyPIN s.accounts accountNumber pin then
    match findAccountIndex s.accounts accountNumber with
    | some index => (.success, { s with currentUser := some index })
    | none => (.success, s)
  else (.invalidPIN, s)

/-- Model of `depositMoney`. -/
def depositMoney (s : Bank) (amount : Double) (pin : String) (now : Clock) : Outcome × Bank :=
  match s.currentUser with
  | none => (.notLoggedIn, s)
  | some cur =>
    match s.accounts[cur]? with
    | none => (.notLoggedIn, s)
    | some user =>
      if amount ≤ 0 then (.invalidAmount, s)
      else if user.pin ≠ pin then (.invalidPIN, s)
      else if user.status ≠ ACTIVE then (.accountNotActive, s)
      else
        let user1 := { user with balance := user.balance + amount }
        (.success,
          { s with
            accounts := s.accounts.set cur user1
            transactions :=
              addTransaction s.transactions user1.accountNumber "Deposit" amount
                user1.balance now })

/-- Model of `withdrawMoney`. -/
def withdrawMoney (s : Bank) (amount : Double) (pin : String) (now : Clock) : Outcome × Bank :=
  match s.currentUser with
  | none => (.notLoggedIn, s)
  | some cur =>
    match s.accounts[cur]? with
    | none => (.notLoggedIn, s)
    | some user =>
      if amount ≤ 0 then (.invalidAmount, s)
      else if user.pin ≠ pin then (.invalidPIN, s)
      else if user.status ≠ ACTIVE then (.accountNotActive, s)
      else if amount > user.balance then (.insufficientFunds, s)
      else
        let user1 := { user with balance := user.balance - amount }
        (.success,
          { s with
            accounts := s.accounts.set cur user1
            transactions :=
              addTransaction s.transactions user1.accountNumber "Withdrawal" (-amount)
                user1.balance now })

/-- The balance stored at an index of the array. -/
def balanceAt (accounts : List Account) (i : Nat) : Double :=
  match accounts[i]? with
  | some a => a.balance
  | none => 0

/-- The statement `accounts[i].balance += amount`. -/
def creditAt (accounts : List Account) (i : Nat) (amount : Double) : List Account :=
  match accounts[i]? with
  | some a => accounts.set i { a with balance := a.balance + amount }
  | none => accounts

/-- Model of `transferMoney`. The two balance updates run one after the
other on the array, and both records read the balances after both updates. -/
def transferMoney (s : Bank) (toAccount : Int) (amount : Double) (pin : String)
    (now : Clock) : Outcome × Bank :=
  match s.currentUser with
  | none => (.notLoggedIn, s)
  | some cur =>
    match s.accounts[cur]? with
    | none => (.notLoggedIn, s)
    | some user =>
      match findAccountIndex s.accounts toAccount with
      | none => (.accountNotFound, s)
      | some toIndex =>
        match s.accounts[toIndex]? with
        | none => (.accountNotFound, s)
        | some dest =>
          if amount ≤ 0 then (.invalidAmount, s)
          else if user.pin ≠ pin then (.invalidPIN, s)
          else if user.status ≠ ACTIVE then (.accountNotActive, s)
          else if dest.status ≠ ACTIVE then (.destinationInactive, s)
          else if amount > user.balance then (.insufficientFunds, s)
          else
            let accounts1 := s.accounts.set cur { user with balance := user.balance - amount }
            let accounts2 := creditAt accounts1 toIndex amount
            let transactions1 :=
              addTransaction s.transactions user.accountNumber "Transfer Out" (-amount)
                (balanceAt accounts2 cur) now
            let transactions2 :=
              addTransaction transactions1 toAccount "Transfer In" amount
                (balanceAt accounts2 toIndex) now
            (.success, { s with accounts := accounts2, transactions := transactions2 })

/-- Model of `applyForLoan`. -/
def applyForLoan (s : Bank) (amount : Double) (pin : String) (now : Clock) : Outcome × Bank :=
  match s.currentUser with
  | none => (.notLoggedIn, s)
  | some cur =>
    match s.accounts[cur]? with
    | none => (.notLoggedIn, s)
    | some user =>
      if amount ≤ 0 then (.invalidAmount, s)
      else if user.pin ≠ pin then (.invalidPIN, s)
      else if user.status ≠ ACTIVE then (.accountNotActive, s)
      else
        let user1 :=
          { user with balance := user.balance + amount, loanBalance := user.loanBalance + amount }
        (.success,
          { s with
            accounts := s.accounts.set cur user1
            transactions :=
              addTransaction s.transactions user1.accountNumber "Loan Disbursement" amount
                user1.balance now })

/-- Model of `repayLoan`. The funds test reads the amount as entered; the
clamp to the loan balance comes after it. -/
def repayLoan (s : Bank) (amount : Double) (pin : String) (now : Clock) : Outcome × Bank :=
  match s.currentUser with
  | none => (.notLoggedIn, s)
  | some cur =>
    match s.accounts[cur]? with
    | none => (.notLoggedIn, s)
    | some user =>
      if user.loanBalance ≤ 0 then (.noOutstandingLoan, s)
      else if amount ≤ 0 then (.invalidAmount, s)
      else if user.pin ≠ pin then (.invalidPIN, s)
      else if amount > user.balance then (.insufficientFunds, s)
      else
        let amount1 := if amount > user.loanBalance then user.loanBalance else amount
        let user1 :=
          { user with
            balance := user.balance - amount1, loanBalance := user.loanBalance - amount1 }
        (.success,
          { s with
            accounts := s.accounts.set cur user1
            transactions :=
              addTransaction s.transactions user1.accountNumber "Loan Repayment" (-amount1)
                user1.balance now })

/-- Model of `investMoney`. -/
def investMoney (s : Bank) (amount : Double) (pin : String) (now : Clock) : Outcome × Bank :=
  match s.currentUser with
  | none => (.notLoggedIn, s)
  | some cur =>
    match s.accounts[cur]? with
    | none => (.notLoggedIn, s)
    | some user =>
      if amount ≤ 0 then (.invalidAmount, s)
      else if user.pin ≠ pin then (.invalidPIN, s)
      else if user.status ≠ ACTIVE then (.accountNotActive, s)
      else if amount > user.balance then (.insufficientFunds, s)
      else
        let user1 :=
          { user with
            balance := user.balance - amount
            investmentBalance := user.investmentBalance + amount }
        (.success,
          { s with
            accounts := s.accounts.set cur user1
            transactions :=
              addTransaction s.transactions user1.accountNumber "Investment" (-amount)
                user1.balance now })

/-- Model of `withdrawInvestment`. -/
def withdrawInvestment (s : Bank) (amount : Double) (pin : String) (now : Clock) :
    Outcome × Bank :=
  match s.currentUser with
  | none => (.notLoggedIn, s)
  | some cur =>
    match s.accounts[cur]? with
    | none => (.notLoggedIn, s)
    | some user =>
      if user.investmentBalance ≤ 0 then (.noInvestment, s)
      else if amount ≤ 0 then (.invalidAmount, s)
      else if user.pin ≠ pin then (.invalidPIN, s)
      else if amount > user.investmentBalance then (.insufficientFunds, s)
      else
        let user1 :=
          { user with
            balance := user.balance + amount
            investmentBalance := user.investmentBalance - amount }
        (.success,
          { s with
            accounts := s.accounts.set cur user1
            transactions :=
              addTransaction s.transactions user1.accountNumber "Investment Withdrawal" amount
                user1.balance now })

end Binary64

namespace Binary64

/-- The store `s'` holds the account `A'` at index `cur`, and its log is the
log of `s`, less the oldest record when that log was full, followed by one
record that carries the number of `A'`, the description, the amount and the
balance of `A'` as `balanceAfter`. -/
def Recorded (s s' : Bank) (cur : Nat) (A' : Account) (description : String)
    (amount : Double) (now : Clock) : Prop :=
  s'.accounts[cur]? = some A'
    ∧ s'.transactions
      = keptRecords s.transactions
        ++ [newTransaction A'.accountNumber description amount A'.balance now]

instance (s s' : Bank) (cur : Nat) (A' : Account) (description : String) (amount : Double)
    (now : Clock) : Decidable (Recorded s s' cur A' description amount now) := by
  unfold Recorded; infer_instance

end Binary64

/-! ## Concrete data for the worked scenarios -/

/-- 1 November 2026, 09:30. -/
def demoClock : Clock := ⟨126, 10, 1, 9, 30⟩

/-- An active customer account with PIN `1234` and no loan or investment. -/
def demoAccount (accountNumber : Int) (balance : ℚ) : Account :=
  { accountNumber := accountNumber
    holderName := "Ada Lovelace"
    age := 30
    address := "12 Main St"
    phone := "5550100"
    accountType := SAVINGS
    balance := balance
    status := ACTIVE
    loanBalance := 0
    investmentBalance := 0
    pin := "1234"
    role := CUSTOMER }

/-- A store with one account, whose holder is logged in. -/
def demoBank (balance : ℚ) : Bank := ⟨[demoAccount 123456 balance], [], some 0⟩

/-- A registration: born 15 June 1990, initial deposit 100.00, PIN `1234`. -/
def demoRegistration : Registration :=
  { holderName := "Ada Lovelace"
    day := 15
    month := 6
    year := 1990
    address := "12 Main St"
    phone := "5550100"
    typeChoice := 1
    initialDeposit := 100
    pin := "1234"
    confirmPin := "1234"
    rand := 123456 }

/-- A session: register, log in, withdraw 40.00, borrow 500.00, invest 30.00,
repay 200.00, divest 10.00. -/
def demoActions : List Action :=
  [ .register demoRegistration demoClock,
    .login 223456 "1234",
    .withdraw 40 "1234" demoClock,
    .applyLoan 500 "1234" demoClock,
    .invest 30 "1234" demoClock,
    .repay 200 "1234" demoClock,
    .divest 10 "1234" demoClock ]

/-- Two accounts holding 100.00 each, the first one logged in, with the given
status codes. -/
def demoStatusPair (statusA statusB : AccountStatus) : Bank :=
  ⟨[{ demoAccount 123456 100 with status := statusA },
    { demoAccount 654321 100 with status := statusB }], [], some 0⟩

/-- A registration by someone born on 1 November 2008. -/
def demoRegistration18 : Registration := { demoRegistration with day := 1, month := 11, year := 2008 }

/-- A registration by someone born on 2 November 2008. -/
def demoRegistration17 : Registration := { demoRegistration with day := 2, month := 11, year := 2008 }

/-- A second applicant, for whom `rand()` returns the value it returned for
the first one (`srand(time(NULL))` reseeds with the same second). -/
def demoRegistrationTwin : Registration :=
  { demoRegistration with
    holderName := "Grace Hopper"
    address := "7 Oak Ave"
    pin := "9876"
    confirmPin := "9876" }

/-- A full log: 1000 records, the record at index `i` carrying account
number `i`. -/
def demoFullLog : List Transaction :=
  (List.range 1000).map (fun (i : Nat) => newTransaction (i : Int) "Deposit" 1 1 demoClock)

/-- A log of three records, numbered like `demoFullLog`. -/
def demoShortLog : List Transaction :=
  (List.range 3).map (fun (i : Nat) => newTransaction (i : Int) "Deposit" 1 1 demoClock)

/-- The store after a registration in which the applicant answers the name
prompt with the Enter key alone. -/
def demoBlankNameBank : Bank :=
  (registerAccount Bank.empty { demoRegistration with holderName := "" } demoClock).2

/-- The store after a registration in which the name is typed with a leading
blank. -/
def demoLeadingBlankBank : Bank :=
  (registerAccount Bank.empty { demoRegistration with holderName := " Ada" } demoClock).2

/-- A registration whose PIN is made of four letters. -/
def demoRegistrationLetters : Registration :=
  { demoRegistration with
    pin := "abcd"
    confirmPin := "abcd" }

/-- A store whose account array is full: 100 accounts, nobody logged in. -/
def demoFullBank : Bank := ⟨List.replicate 100 (demoAccount 123456 10), [], none⟩

/-- Three accounts, the first one logged in. -/
def demoTrio : Bank :=
  ⟨[demoAccount 123456 100, demoAccount 654321 5, demoAccount 777777 9], [], some 0⟩

namespace Binary64

/-- An active customer account with PIN `1234` and no loan or investment. -/
def demoAccount64 (accountNumber : Int) (balance : Double) : Account :=
  { accountNumber := accountNumber
    holderName := "Ada Lovelace"
    age := 36
    address := "12 Main St"
    phone := "5550100"
    accountType := SAVINGS
    balance := balance
    status := ACTIVE
    loanBalance := 0
    investmentBalance := 0
    pin := "1234"
    role := CUSTOMER }

/-- A store with one account, whose holder is logged in. -/
def demoBank64 (balance : Double) : Bank := ⟨[demoAccount64 223456 balance], [], some 0⟩

/-- Two accounts, the first one logged in. -/
def demoPair64 (balanceA balanceB : Double) : Bank :=
  ⟨[demoAccount64 223456 balanceA, demoAccount64 654321 balanceB], [], some 0⟩

/-- One logged-in account with balance 550.00 and loan balance 500.00. -/
def demoLoanBank64 : Bank :=
  ⟨[{ demoAccount64 223456 550 with loanBalance := 500 }], [], some 0⟩

/-- One logged-in account with balance 100.00 and loan balance 500.00. -/
def demoDebtBank64 : Bank :=
  ⟨[{ demoAccount64 223456 100 with loanBalance := 500 }], [], some 0⟩

/-- A registration: born 15 June 1990, initial deposit 100.00, PIN `1234`. -/
def demoRegistration64 : Registration :=
  { holderName := "Ada Lovelace"
    day := 15
    month := 6
    year := 1990
    address := "12 Main St"
    phone := "5550100"
    typeChoice := 1
    initialDeposit := 100
    pin := "1234"
    confirmPin := "1234"
    rand := 123456 }

/-- The store after a registration with 100.00 and the login of the new
customer, starting from the empty store. -/
def demoSession64 : Bank :=
  (login (registerAccount Bank.empty demoRegistration64 demoClock).2 223456 "1234").2

/-- The value `scanf("%lf")` stores for the text `1e999`. -/
def hugeAmount : Double := Double.ofRat ((10 : ℚ) ^ 999)

/-- The first account of `demoBusyBank64`: balance 100.00, a loan of 50.00 and
an investment of 30.00. -/
def demoBusyAccount64 : Account :=
  { demoAccount64 223456 100 with
    loanBalance := 50
    investmentBalance := 30 }

/-- Two accounts, the first one logged in, on which each of the seven money
operations can be accepted. -/
def demoBusyBank64 : Bank := ⟨[demoBusyAccount64, demoAccount64 654321 5], [], some 0⟩

end Binary64

/-! ## Theorems -/

/-! ### Loan scenario -/

/-- C2 (as stated, refuted): after `ApplyLoan(500.00)` on an active account
with balance 0.00 and no loan, `RepayLoan(600.00)` with the correct PIN is
not accepted: the funds test `amount > balance` sees 600 > 500 before the
clamp, so the call ends with the insufficient-funds message and the balance
and the loan balance both stay 500.00. -/
theorem C2_repay_600_is_rejected :
    (repayLoan (applyForLoan (demoBank 0) 500 "1234" demoClock).2 600 "1234" demoClock).1
        = Outcome.insufficientFunds
      ∧ (repayLoan (applyForLoan (demoBank 0) 500 "1234" demoClock).2 600 "1234"
            demoClock).2.accounts.map (fun a => (a.balance, a.loanBalance)) = [(500, 500)]
      ∧ ¬ ((repayLoan (applyForLoan (demoBank 0) 500 "1234" demoClock).2 600 "1234"
              demoClock).1 = Outcome.success
            ∧ (repayLoan (applyForLoan (demoBank 0) 500 "1234" demoClock).2 600 "1234"
              demoClock).2.accounts.map (fun a => (a.balance, a.loanBalance)) = [(0, 0)]) := by
  decide!

/-- C2 (amended): on an active account with balance 0.00 and loan balance
0.00, `ApplyLoan(500.00)` with the correct PIN succeeds and yields balance
500.00 and loan balance 500.00; a following `RepayLoan(600.00)` with the
correct PIN is rejected for insufficient funds (600 exceeds the balance 500,
and that test precedes the clamp) and leaves the store as it was, with
balance 500.00 and loan balance 500.00. -/
theorem C2_loan_scenario (s : Bank) (cur : Nat) (user : Account) (pin : String)
    (now now1 : Clock)
    (hcur : s.currentUser = some cur) (hacc : s.accounts[cur]? = some user)
    (hactive : user.status = ACTIVE) (hpin : user.pin = pin)
    (hbal : user.balance = 0) (hloan : user.loanBalance = 0) :
    (applyForLoan s 500 pin now).1 = Outcome.success
      ∧ (applyForLoan s 500 pin now).2.accounts[cur]?
          = some { user with balance := 500, loanBalance := 500 }
      ∧ (repayLoan (applyForLoan s 500 pin now).2 600 pin now1).1 = Outcome.insufficientFunds
      ∧ (repayLoan (applyForLoan s 500 pin now).2 600 pin now1).2
          = (applyForLoan s 500 pin now).2 := by
  subst hpin
  have hlt : cur < s.accounts.length := by
    rcases List.getElem?_eq_some.1 hacc with ⟨h, _⟩
    exact h
  have happly : applyForLoan s 500 user.pin now
      = (Outcome.success,
          { s with
            accounts := s.accounts.set cur { user with balance := 500, loanBalance := 500 }
            transactions :=
              addTransaction s.transactions user.accountNumber "Loan Disbursement" 500 500
                now }) := by
    unfold applyForLoan
    rw [hcur]
    simp only [hacc, hactive, hbal, hloan]
    norm_num
  have hget : (s.accounts.set cur { user with balance := 500, loanBalance := 500 })[cur]?
      = some { user with balance := 500, loanBalance := 500 } := by
    rw [List.getElem?_set]
    simp [hlt]
  rw [happly]
  refine ⟨rfl, hget, ?_, ?_⟩
  · unfold repayLoan
    simp only [hcur, hget]
    norm_num
  · unfold repayLoan
    simp only [hcur, hget]
    norm_num

/-- Witness of `C2_loan_scenario` on the one-account store. -/
theorem C2_loan_scenario_witness :
    (applyForLoan (demoBank 0) 500 "1234" demoClock).1 = Outcome.success
      ∧ (applyForLoan (demoBank 0) 500 "1234" demoClock).2.accounts[0]?
          = some { demoAccount 123456 0 with balance := 500, loanBalance := 500 }
      ∧ (repayLoan (applyForLoan (demoBank 0) 500 "1234" demoClock).2 600 "1234" demoClock).1
          = Outcome.insufficientFunds
      ∧ (repayLoan (applyForLoan (demoBank 0) 500 "1234" demoClock).2 600 "1234" demoClock).2
          = (applyForLoan (demoBank 0) 500 "1234" demoClock).2 :=
  C2_loan_scenario (demoBank 0) 0 (demoAccount 123456 0) "1234" demoClock demoClock
    rfl rfl rfl rfl rfl rfl

/-! ### Rejections leave the store untouched -/

theorem depositMoney_rejected (s : Bank) (x : ℚ) (pin : String) (now : Clock)
    (h : (depositMoney s x pin now).1 ≠ Outcome.success) : (depositMoney s x pin now).2 = s := by
  unfold depositMoney at h ⊢
  split
  · rfl
  · split
    · rfl
    · split_ifs <;> first | rfl | simp_all

theorem withdrawMoney_rejected (s : Bank) (x : ℚ) (pin : String) (now : Clock)
    (h : (withdrawMoney s x pin now).1 ≠ Outcome.success) :
    (withdrawMoney s x pin now).2 = s := by
  unfold withdrawMoney at h ⊢
  split
  · rfl
  · split
    · rfl
    · split_ifs <;> first | rfl | simp_all

theorem transferMoney_rejected (s : Bank) (dst : Int) (x : ℚ) (pin : String) (now : Clock)
    (h : (transferMoney s dst x pin now).1 ≠ Outcome.success) :
    (transferMoney s dst x pin now).2 = s := by
  unfold transferMoney at h ⊢
  split
  · rfl
  · split
    · rfl
    · split
      · rfl
      · split
        · rfl
        · split_ifs <;> first | rfl | simp_all

theorem applyForLoan_rejected (s : Bank) (x : ℚ) (pin : String) (now : Clock)
    (h : (applyForLoan s x pin now).1 ≠ Outcome.success) : (applyForLoan s x pin now).2 = s := by
  unfold applyForLoan at h ⊢
  split
  · rfl
  · split
    · rfl
    · split_ifs <;> first | rfl | simp_all

theorem repayLoan_rejected (s : Bank) (x : ℚ) (pin : String) (now : Clock)
    (h : (repayLoan s x pin now).1 ≠ Outcome.success) : (repayLoan s x pin now).2 = s := by
  unfold repayLoan at h ⊢
  split
  · rfl
  · split
    · rfl
    · split_ifs <;> first | rfl | simp_all

theorem investMoney_rejected (s : Bank) (x : ℚ) (pin : String) (now : Clock)
    (h : (investMoney s x pin now).1 ≠ Outcome.success) : (investMoney s x pin now).2 = s := by
  unfold investMoney at h ⊢
  split
  · rfl
  · split
    · rfl
    · split_ifs <;> first | rfl | simp_all

theorem withdrawInvestment_rejected (s : Bank) (x : ℚ) (pin : String) (now : Clock)
    (h : (withdrawInvestment s x pin now).1 ≠ Outcome.success) :
    (withdrawInvestment s x pin now).2 = s := by
  unfold withdrawInvestment at h ⊢
  split
  · rfl
  · split
    · rfl
    · split_ifs <;> first | rfl | simp_all

/-- C3: for every store and every input, whenever deposit, withdraw,
transfer, apply loan, repay loan, invest or withdraw investment ends with
anything but success, the store after the call equals the store before it:
every account field, the transaction log (contents and count) and the
session are unchanged. -/
theorem C3_rejection_is_atomic (s : Bank) (dst : Int) (x : ℚ) (pin : String) (now : Clock) :
    ((depositMoney s x pin now).1 ≠ Outcome.success → (depositMoney s x pin now).2 = s)
      ∧ ((withdrawMoney s x pin now).1 ≠ Outcome.success → (withdrawMoney s x pin now).2 = s)
      ∧ ((transferMoney s dst x pin now).1 ≠ Outcome.success
          → (transferMoney s dst x pin now).2 = s)
      ∧ ((applyForLoan s x pin now).1 ≠ Outcome.success → (applyForLoan s x pin now).2 = s)
      ∧ ((repayLoan s x pin now).1 ≠ Outcome.success → (repayLoan s x pin now).2 = s)
      ∧ ((investMoney s x pin now).1 ≠ Outcome.success → (investMoney s x pin now).2 = s)
      ∧ ((withdrawInvestment s x pin now).1 ≠ Outcome.success
          → (withdrawInvestment s x pin now).2 = s) :=
  ⟨depositMoney_rejected s x pin now, withdrawMoney_rejected s x pin now,
    transferMoney_rejected s dst x pin now, applyForLoan_rejected s x pin now,
    repayLoan_rejected s x pin now, investMoney_rejected s x pin now,
    withdrawInvestment_rejected s x pin now⟩

/-- Witness of `C3_rejection_is_atomic`: withdrawing 150.00 from a balance of
100.00 is rejected for insufficient funds, the balance stays 100.00 and no
record is added. -/
theorem C3_rejection_is_atomic_witness :
    (withdrawMoney (demoBank 100) 150 "1234" demoClock).1 = Outcome.insufficientFunds
      ∧ (withdrawMoney (demoBank 100) 150 "1234" demoClock).2 = demoBank 100
      ∧ (demoBank 100).accounts.map (fun a => a.balance) = [100]
      ∧ (demoBank 100).transactions = [] :=
  ⟨by decide!,
    (C3_rejection_is_atomic (demoBank 100) 0 150 "1234" demoClock).2.1 (by decide!),
    by decide!, rfl⟩

/-! ### Lists -/

theorem getElem?_set_same {l : List Account} {i : Nat} {a b : Account} (h : l[i]? = some a) :
    (l.set i b)[i]? = some b := by
  have hlt : i < l.length := (List.getElem?_eq_some.1 h).1
  rw [List.getElem?_set]
  simp [hlt]

/-! ### Status gating -/

/-- C5: when the acting account is not active, Deposit, Withdraw, Transfer,
ApplyLoan and Invest are rejected for every amount and PIN and leave the
store unchanged; and Transfer is rejected, leaving the store unchanged,
whenever the destination account found by `findAccountIndex` is not active,
whatever the state of the source, the PIN and the funds. -/
theorem C5_status_gating (s : Bank) (cur : Nat) (user : Account) (dst : Int) (x : ℚ)
    (pin : String) (now : Clock)
    (hcur : s.currentUser = some cur) (hacc : s.accounts[cur]? = some user) :
    (user.status ≠ ACTIVE →
        ((depositMoney s x pin now).1 ≠ Outcome.success ∧ (depositMoney s x pin now).2 = s)
          ∧ ((withdrawMoney s x pin now).1 ≠ Outcome.success
              ∧ (withdrawMoney s x pin now).2 = s)
          ∧ ((transferMoney s dst x pin now).1 ≠ Outcome.success
              ∧ (transferMoney s dst x pin now).2 = s)
          ∧ ((applyForLoan s x pin now).1 ≠ Outcome.success
              ∧ (applyForLoan s x pin now).2 = s)
          ∧ ((investMoney s x pin now).1 ≠ Outcome.success ∧ (investMoney s x pin now).2 = s))
      ∧ (∀ (j : Nat) (dest : Account),
          findAccountIndex s.accounts dst = some j → s.accounts[j]? = some dest →
          dest.status ≠ ACTIVE →
          (transferMoney s dst x pin now).1 ≠ Outcome.success
            ∧ (transferMoney s dst x pin now).2 = s) := by
  have key : ∀ (o : Outcome × Bank), o.1 ≠ Outcome.success → (o.1 ≠ Outcome.success → o.2 = s) →
      o.1 ≠ Outcome.success ∧ o.2 = s := fun o h1 h2 => ⟨h1, h2 h1⟩
  refine ⟨fun hst => ⟨?_, ?_, ?_, ?_, ?_⟩, fun j dest hfind hdest hst => ?_⟩
  · refine key _ ?_ (depositMoney_rejected s x pin now)
    unfold depositMoney
    simp only [hcur, hacc]
    split_ifs <;> simp
  · refine key _ ?_ (withdrawMoney_rejected s x pin now)
    unfold withdrawMoney
    simp only [hcur, hacc]
    split_ifs <;> simp
  · refine key _ ?_ (transferMoney_rejected s dst x pin now)
    unfold transferMoney
    simp only [hcur, hacc]
    split
    · simp
    · split
      · simp
      · split_ifs <;> simp
  · refine key _ ?_ (applyForLoan_rejected s x pin now)
    unfold applyForLoan
    simp only [hcur, hacc]
    split_ifs <;> simp
  · refine key _ ?_ (investMoney_rejected s x pin now)
    unfold investMoney
    simp only [hcur, hacc]
    split_ifs <;> simp
  · refine key _ ?_ (transferMoney_rejected s dst x pin now)
    unfold transferMoney
    simp only [hcur, hacc, hfind, hdest]
    split_ifs <;> simp

/-- Witness of `C5_status_gating`: a frozen account cannot deposit, withdraw,
transfer, borrow or invest, and an active account cannot transfer to a
closed one. -/
theorem C5_status_gating_witness :
    (((depositMoney (demoStatusPair FROZEN ACTIVE) 10 "1234" demoClock).1 ≠ Outcome.success
          ∧ (depositMoney (demoStatusPair FROZEN ACTIVE) 10 "1234" demoClock).2
              = demoStatusPair FROZEN ACTIVE)
        ∧ ((withdrawMoney (demoStatusPair FROZEN ACTIVE) 10 "1234" demoClock).1
              ≠ Outcome.success
          ∧ (withdrawMoney (demoStatusPair FROZEN ACTIVE) 10 "1234" demoClock).2
              = demoStatusPair FROZEN ACTIVE)
        ∧ ((transferMoney (demoStatusPair FROZEN ACTIVE) 654321 10 "1234" demoClock).1
              ≠ Outcome.success
          ∧ (transferMoney (demoStatusPair FROZEN ACTIVE) 654321 10 "1234" demoClock).2
              = demoStatusPair FROZEN ACTIVE)
        ∧ ((applyForLoan (demoStatusPair FROZEN ACTIVE) 10 "1234" demoClock).1
              ≠ Outcome.success
          ∧ (applyForLoan (demoStatusPair FROZEN ACTIVE) 10 "1234" demoClock).2
              = demoStatusPair FROZEN ACTIVE)
        ∧ ((investMoney (demoStatusPair FROZEN ACTIVE) 10 "1234" demoClock).1
              ≠ Outcome.success
          ∧ (investMoney (demoStatusPair FROZEN ACTIVE) 10 "1234" demoClock).2
              = demoStatusPair FROZEN ACTIVE))
      ∧ ((transferMoney (demoStatusPair ACTIVE CLOSED) 654321 10 "1234" demoClock).1
            ≠ Outcome.success
          ∧ (transferMoney (demoStatusPair ACTIVE CLOSED) 654321 10 "1234" demoClock).2
              = demoStatusPair ACTIVE CLOSED) :=
  ⟨(C5_status_gating (demoStatusPair FROZEN ACTIVE) 0
        { demoAccount 123456 100 with status := FROZEN } 654321 10 "1234" demoClock rfl rfl).1
      (by decide),
    (C5_status_gating (demoStatusPair ACTIVE CLOSED) 0
        { demoAccount 123456 100 with status := ACTIVE } 654321 10 "1234" demoClock rfl rfl).2
      1 { demoAccount 654321 100 with status := CLOSED } (by decide) rfl (by decide)⟩

/-! ### The data file -/

/-- On the store left by the demo session, saving and loading gives back
every account and every transaction. -/
theorem loadFromFile_saveToFile_demo :
    loadFromFile (saveToFile (run Bank.empty demoActions))
      = logout (run Bank.empty demoActions) := by
  decide!

/-- C6 (the code at the failing input): a store whose account has an empty
holder name is written with an empty second line; on reading, ` %[^\n]`
skips that line, so the age line becomes the name, the leading number of the
address becomes the age and the address loses it. A holder name typed with
a leading blank comes back without it. -/
theorem C6_roundtrip_changes_names :
    demoBlankNameBank.accounts.map (fun a => (a.holderName, a.age, a.address))
        = [("", 36, "12 Main St")]
      ∧ (loadFromFile (saveToFile demoBlankNameBank)).accounts.map
          (fun a => (a.holderName, a.age, a.address)) = [("36", 12, "Main St")]
      ∧ demoLeadingBlankBank.accounts.map (fun a => a.holderName) = [" Ada"]
      ∧ (loadFromFile (saveToFile demoLeadingBlankBank)).accounts.map
          (fun a => a.holderName) = ["Ada"] := by
  decide!

/-! ### Birth dates -/

theorem isValidDate_iff (day month year : Int) (now : Clock) :
    isValidDate day month year now = true
      ↔ 1900 ≤ year ∧ year ≤ getCurrentYear now ∧ isCalendarDate day month year := by
  unfold isValidDate isCalendarDate daysInMonth isLeapYear
  by_cases hy : year < 1900 ∨ year > getCurrentYear now
  · rw [if_pos hy]
    constructor
    · intro h; cases h
    · rintro ⟨h1, h2, _⟩; omega
  · rw [if_neg hy]
    have hy0 : 0 ≤ year := by omega
    rw [Int.tmod_eq_emod hy0 (by norm_num), Int.tmod_eq_emod hy0 (by norm_num),
      Int.tmod_eq_emod hy0 (by norm_num)]
    simp only
    split_ifs <;> simp <;> omega

/-- C7 (as stated, refuted): on 1 November 2026 `isValidDate` accepts
31 December 2026, a real calendar date that is later than the current date,
and rejects 1 January 1899, a real calendar date that is not later than the
current date. -/
theorem C7_isValidDate_not_calendar_check :
    (isValidDate 31 12 2026 demoClock = true
        ∧ ¬ (isCalendarDate 31 12 2026 ∧ notAfterToday 31 12 2026 demoClock))
      ∧ (isValidDate 1 1 1899 demoClock = false
        ∧ (isCalendarDate 1 1 1899 ∧ notAfterToday 1 1 1899 demoClock)) := by
  decide

/-- C7 (amended): `isValidDate` returns true exactly when (day, month, year)
is a real Gregorian calendar date (month 1..12, day within the month's
length, February having 29 days only in leap years) whose year lies between
1900 and the current year, both included; month and day are not compared
with the current date. A registration ends with the invalid-date message
exactly when the store has room and `isValidDate` returns false. -/
theorem C7_isValidDate_characterisation (day month year : Int) (now : Clock) (s : Bank)
    (r : Registration) :
    (isValidDate day month year now = true
        ↔ 1900 ≤ year ∧ year ≤ getCurrentYear now ∧ isCalendarDate day month year)
      ∧ ((registerAccount s r now).1 = Outcome.invalidDate
        ↔ s.accounts.length < MAX_ACCOUNTS ∧ isValidDate r.day r.month r.year now = false) := by
  refine ⟨isValidDate_iff day month year now, ?_⟩
  unfold registerAccount
  simp only
  split_ifs <;> simp_all

theorem registerAccount_underage_iff (s : Bank) (r : Registration) (now : Clock)
    (hroom : s.accounts.length < MAX_ACCOUNTS)
    (hvalid : isValidDate r.day r.month r.year now = true) :
    (registerAccount s r now).1 = Outcome.underage
      ↔ calculateAge r.day r.month r.year now < 18 := by
  unfold registerAccount
  simp only [MIN_AGE]
  split_ifs <;> simp_all
  omega

theorem registerAccount_success (s : Bank) (r : Registration) (now : Clock)
    (hroom : s.accounts.length < MAX_ACCOUNTS)
    (hvalid : isValidDate r.day r.month r.year now = true)
    (hage : ¬ calculateAge r.day r.month r.year now < 18)
    (hpin : r.pin.length = PIN_LENGTH) (hconfirm : r.pin = r.confirmPin) :
    (registerAccount s r now).1 = Outcome.success := by
  unfold registerAccount
  simp only [MIN_AGE]
  split_ifs <;> simp_all
  omega

/-- C8: for every valid birth date and current date, `calculateAge` returns
the number of full years elapsed (current year minus birth year, less one
when the birthday has not yet occurred this year); a registration that
reaches the age check (the store has room) ends with the underage message
exactly when that age is below 18; when the 18th birthday is today the age
is 18 and the registration is not rejected as underage (and succeeds when the
PIN has 4 characters and is confirmed); when the 18th birthday is still ahead
in the current year the age is 17 and the registration is rejected as
underage; in all, the registration is rejected as underage exactly when the
18th birthday lies after the current date. -/
theorem C8_age_threshold (s : Bank) (r : Registration) (now : Clock)
    (hroom : s.accounts.length < MAX_ACCOUNTS)
    (hvalid : isValidDate r.day r.month r.year now = true) :
    calculateAge r.day r.month r.year now = fullYearsElapsed r.day r.month r.year now
      ∧ ((registerAccount s r now).1 = Outcome.underage
          ↔ calculateAge r.day r.month r.year now < 18)
      ∧ (now.tm_year + 1900 = r.year + 18 → now.tm_mon + 1 = r.month → now.tm_mday = r.day →
          calculateAge r.day r.month r.year now = 18
            ∧ (registerAccount s r now).1 ≠ Outcome.underage
            ∧ (r.pin.length = PIN_LENGTH → r.pin = r.confirmPin →
                (registerAccount s r now).1 = Outcome.success))
      ∧ (now.tm_year + 1900 = r.year + 18 → birthdayStillAhead r.day r.month now →
          calculateAge r.day r.month r.year now = 17
            ∧ (registerAccount s r now).1 = Outcome.underage)
      ∧ ((registerAccount s r now).1 = Outcome.underage
          ↔ now.tm_year + 1900 < r.year + 18
            ∨ (now.tm_year + 1900 = r.year + 18 ∧ birthdayStillAhead r.day r.month now)) := by
  have hiff := registerAccount_underage_iff s r now hroom hvalid
  refine ⟨?_, hiff, ?_, ?_, ?_⟩
  · unfold calculateAge fullYearsElapsed birthdayStillAhead
    simp only
    split_ifs <;> ring
  · intro hy hm hd
    have hage : calculateAge r.day r.month r.year now = 18 := by
      unfold calculateAge
      simp only
      split_ifs <;> omega
    refine ⟨hage, ?_, ?_⟩
    · intro h
      rw [hiff, hage] at h
      exact absurd h (by decide)
    · intro hpin hconfirm
      exact registerAccount_success s r now hroom hvalid (by rw [hage]; decide) hpin hconfirm
  · intro hy hahead
    have hage : calculateAge r.day r.month r.year now = 17 := by
      unfold birthdayStillAhead at hahead
      unfold calculateAge
      simp only
      split_ifs
      omega
    exact ⟨hage, by rw [hiff, hage]; decide⟩
  · rw [hiff]
    unfold calculateAge birthdayStillAhead
    simp only
    split_ifs <;> omega

/-- Witness of `C8_age_threshold`: on 1 November 2026 an applicant born on
1 November 2008 is 18 and is registered; an applicant born on 2 November 2008
is 17 and is rejected as underage. -/
theorem C8_age_threshold_witness :
    (calculateAge 1 11 2008 demoClock = 18
        ∧ (registerAccount Bank.empty demoRegistration18 demoClock).1 ≠ Outcome.underage
        ∧ (registerAccount Bank.empty demoRegistration18 demoClock).1 = Outcome.success)
      ∧ (calculateAge 2 11 2008 demoClock = 17
        ∧ (registerAccount Bank.empty demoRegistration17 demoClock).1 = Outcome.underage) :=
  ⟨((C8_age_threshold Bank.empty demoRegistration18 demoClock (by decide)
        (by decide)).2.2.1 (by decide) (by decide) (by decide)).imp id
      (fun h => ⟨h.1, h.2 (by decide) (by decide)⟩),
    (C8_age_threshold Bank.empty demoRegistration17 demoClock (by decide)
        (by decide)).2.2.2.1 (by decide) (by decide)⟩

/-! ### Account numbers -/

/-- C9 (the code at the failing input): two registrations for which `rand()`
returns the same value both succeed and leave two accounts carrying the
number 223456, although `isAccountNumberUnique` is false for that number on
the store in which the second registration runs. -/
theorem C9_duplicate_account_number :
    (registerAccount Bank.empty demoRegistration demoClock).1 = Outcome.success
      ∧ (registerAccount (registerAccount Bank.empty demoRegistration demoClock).2
          demoRegistrationTwin demoClock).1 = Outcome.success
      ∧ isAccountNumberUnique (registerAccount Bank.empty demoRegistration demoClock).2.accounts
          223456 = false
      ∧ (run Bank.empty
            [.register demoRegistration demoClock,
              .register demoRegistrationTwin demoClock]).accounts.map
          (fun a => (a.accountNumber, a.holderName))
          = [(223456, "Ada Lovelace"), (223456, "Grace Hopper")] := by
  decide!

/-! ### The transaction log -/

theorem shiftLoop_append (rest : List Transaction) :
    ∀ (pre : List Transaction) (x : Transaction),
      ∃ last, shiftLoop (pre ++ x :: rest) pre.length rest.length = pre ++ rest ++ [last] := by
  induction rest with
  | nil => intro pre x; exact ⟨x, by simp [shiftLoop]⟩
  | cons y rest ih =>
    intro pre x
    obtain ⟨last, hlast⟩ := ih (pre ++ [y]) y
    refine ⟨last, ?_⟩
    have hget : (pre ++ x :: y :: rest)[pre.length + 1]? = some y := by
      rw [List.getElem?_append_right (by omega)]
      simp
    have hset : (pre ++ x :: y :: rest).set pre.length y = (pre ++ [y]) ++ y :: rest := by
      simp
    simp only [List.length_cons, shiftLoop, hget, hset]
    have hlen : (pre ++ [y]).length = pre.length + 1 := by simp
    rw [hlen] at hlast
    rw [hlast]
    simp

theorem shiftLoop_take (ts : List Transaction) :
    (shiftLoop ts 0 (ts.length - 1)).take (ts.length - 1) = ts.tail := by
  cases ts with
  | nil => simp [shiftLoop]
  | cons x rest =>
    obtain ⟨last, hlast⟩ := shiftLoop_append rest [] x
    simp only [List.nil_append, List.length_nil] at hlast
    simp only [List.length_cons, Nat.add_sub_cancel, List.tail_cons, hlast]
    simp

/-- C10: `MAX_ACCOUNTS * 10` is 1000. On a log holding exactly 1000 records
`addTransaction` yields the old log without its first record, followed by
the new record: the count is still 1000, the record at every index
`i < 999` is the old record at index `i + 1`, and the record at index 999
is the new one. On a log with fewer than 1000 records it yields the old log
followed by the new record, and the count grows by one. -/
theorem C10_fifo_eviction (ts : List Transaction) (accountNumber : Int) (description : String)
    (amount balanceAfter : ℚ) (now : Clock) :
    MAX_TRANSACTIONS = 1000
      ∧ (ts.length = MAX_TRANSACTIONS →
          addTransaction ts accountNumber description amount balanceAfter now
              = ts.tail ++ [newTransaction accountNumber description amount balanceAfter now]
            ∧ (addTransaction ts accountNumber description amount balanceAfter now).length
                = 1000
            ∧ (∀ i : Nat, i < 999 →
                (addTransaction ts accountNumber description amount balanceAfter now)[i]?
                  = ts[i + 1]?)
            ∧ (addTransaction ts accountNumber description amount balanceAfter now)[999]?
                = some (newTransaction accountNumber description amount balanceAfter now))
      ∧ (ts.length < MAX_TRANSACTIONS →
          addTransaction ts accountNumber description amount balanceAfter now
              = ts ++ [newTransaction accountNumber description amount balanceAfter now]
            ∧ (addTransaction ts accountNumber description amount balanceAfter now).length
                = ts.length + 1) := by
  have hcap : MAX_TRANSACTIONS = 1000 := rfl
  refine ⟨hcap, fun hfull => ?_, fun hroom => ?_⟩
  · have heq : addTransaction ts accountNumber description amount balanceAfter now
        = ts.tail ++ [newTransaction accountNumber description amount balanceAfter now] := by
      unfold addTransaction
      simp only [ge_iff_le, hfull, le_refl, if_true]
      rw [← hfull, shiftLoop_take]
    have htail : ts.tail.length = 999 := by
      rw [List.length_tail, hfull, hcap]
    refine ⟨heq, ?_, ?_, ?_⟩
    · rw [heq, List.length_append, htail]
      rfl
    · intro i hi
      rw [heq, List.getElem?_append_left (by omega)]
      cases ts with
      | nil => simp
      | cons t rest => simp
    · rw [heq, List.getElem?_append_right (by omega), htail]
      simp
  · have heq : addTransaction ts accountNumber description amount balanceAfter now
        = ts ++ [newTransaction accountNumber description amount balanceAfter now] := by
      unfold addTransaction
      have hnot : ¬ ts.length ≥ MAX_TRANSACTIONS := by omega
      simp only [hnot, if_false]
    refine ⟨heq, ?_⟩
    rw [heq]
    simp

/-- Witness of `C10_fifo_eviction`: on the full log numbered 0..999 the new
record pushes record 0 out, record 1 becomes the first and the count stays
1000; on a log of three records the new record is appended. -/
theorem C10_fifo_eviction_witness :
    (addTransaction demoFullLog 7 "Deposit" 5 5 demoClock
          = demoFullLog.tail ++ [newTransaction 7 "Deposit" 5 5 demoClock]
        ∧ (addTransaction demoFullLog 7 "Deposit" 5 5 demoClock).length = 1000
        ∧ (∀ i : Nat, i < 999 →
            (addTransaction demoFullLog 7 "Deposit" 5 5 demoClock)[i]? = demoFullLog[i + 1]?)
        ∧ (addTransaction demoFullLog 7 "Deposit" 5 5 demoClock)[999]?
            = some (newTransaction 7 "Deposit" 5 5 demoClock))
      ∧ (addTransaction demoShortLog 7 "Deposit" 5 5 demoClock
          = demoShortLog ++ [newTransaction 7 "Deposit" 5 5 demoClock]
        ∧ (addTransaction demoShortLog 7 "Deposit" 5 5 demoClock).length
            = demoShortLog.length + 1) :=
  ⟨(C10_fifo_eviction demoFullLog 7 "Deposit" 5 5 demoClock).2.1
      (by simp [demoFullLog, MAX_TRANSACTIONS, MAX_ACCOUNTS]),
    (C10_fifo_eviction demoShortLog 7 "Deposit" 5 5 demoClock).2.2
      (by simp [demoShortLog, MAX_TRANSACTIONS, MAX_ACCOUNTS])⟩

/-! ### What an accepted operation leaves behind -/

theorem addTransaction_eq (ts : List Transaction) (accountNumber : Int) (description : String)
    (amount balanceAfter : ℚ) (now : Clock) :
    addTransaction ts accountNumber description amount balanceAfter now
      = keptRecords ts ++ [newTransaction accountNumber description amount balanceAfter now] := by
  unfold addTransaction keptRecords
  simp only [shiftLoop_take]

/-! ### PIN format -/

/-- C13 (the code at the failing input): `changePIN` accepts the new PIN
`12ab`, four characters that are not all digits, and stores it; and
`registerAccount` accepts the PIN `abcd`. -/
theorem C13_pin_with_letters_accepted :
    (changePIN (demoBank 100) "1234" "12ab" "12ab").1 = Outcome.success
      ∧ (changePIN (demoBank 100) "1234" "12ab" "12ab").2.accounts.map (fun a => a.pin)
          = ["12ab"]
      ∧ (registerAccount Bank.empty demoRegistrationLetters demoClock).1 = Outcome.success
      ∧ (registerAccount Bank.empty demoRegistrationLetters demoClock).2.accounts.map
          (fun a => a.pin) = ["abcd"] := by
  decide!

/-! ### Registration -/

theorem addTransaction_length_le (ts : List Transaction) (accountNumber : Int)
    (description : String) (amount balanceAfter : ℚ) (now : Clock)
    (h : ts.length ≤ MAX_TRANSACTIONS) :
    (addTransaction ts accountNumber description amount balanceAfter now).length
      ≤ MAX_TRANSACTIONS := by
  rw [addTransaction_eq]
  unfold keptRecords
  have hcap : MAX_TRANSACTIONS = 1000 := rfl
  split_ifs with hfull
  · simp only [List.length_append, List.length_tail, List.length_singleton]
    omega
  · simp only [List.length_append, List.length_singleton]
    omega

theorem length_creditAt (l : List Account) (i : Nat) (x : ℚ) :
    (creditAt l i x).length = l.length := by
  unfold creditAt
  split <;> simp

theorem registerAccount_counts (s : Bank) (r : Registration) (now : Clock) :
    s.accounts.length ≤ (registerAccount s r now).2.accounts.length
      ∧ (s.accounts.length ≤ MAX_ACCOUNTS →
          (registerAccount s r now).2.accounts.length ≤ MAX_ACCOUNTS)
      ∧ (s.transactions.length ≤ MAX_TRANSACTIONS →
          (registerAccount s r now).2.transactions.length ≤ MAX_TRANSACTIONS) := by
  unfold registerAccount
  simp only
  split_ifs <;> first
    | exact ⟨le_refl _, id, id⟩
    | exact ⟨by simp, fun _ => by simp only [List.length_append, List.length_singleton]; omega,
        fun h => addTransaction_length_le _ _ _ _ _ _ h⟩
    | exact ⟨by simp, fun _ => by simp only [List.length_append, List.length_singleton]; omega,
        id⟩

theorem updateAccountStatus_counts (s : Bank) (n c : Int) :
    (updateAccountStatus s n c).2.accounts.length = s.accounts.length
      ∧ (updateAccountStatus s n c).2.transactions = s.transactions := by
  unfold updateAccountStatus
  split
  · exact ⟨rfl, rfl⟩
  · split
    · exact ⟨rfl, rfl⟩
    · split_ifs <;> first | exact ⟨rfl, rfl⟩ | exact ⟨by simp, rfl⟩

theorem changePIN_counts (s : Bank) (o n c : String) :
    (changePIN s o n c).2.accounts.length = s.accounts.length
      ∧ (changePIN s o n c).2.transactions = s.transactions := by
  unfold changePIN
  split
  · exact ⟨rfl, rfl⟩
  · split
    · exact ⟨rfl, rfl⟩
    · split_ifs <;> first | exact ⟨rfl, rfl⟩ | exact ⟨by simp, rfl⟩

theorem login_counts (s : Bank) (n : Int) (pin : String) :
    (login s n pin).2.accounts = s.accounts ∧ (login s n pin).2.transactions = s.transactions := by
  unfold login
  split_ifs
  · split <;> exact ⟨rfl, rfl⟩
  · exact ⟨rfl, rfl⟩

theorem depositMoney_counts (s : Bank) (x : ℚ) (pin : String) (now : Clock) :
    (depositMoney s x pin now).2.accounts.length = s.accounts.length
      ∧ (s.transactions.length ≤ MAX_TRANSACTIONS →
          (depositMoney s x pin now).2.transactions.length ≤ MAX_TRANSACTIONS) := by
  unfold depositMoney
  split
  · exact ⟨rfl, id⟩
  · split
    · exact ⟨rfl, id⟩
    · split_ifs <;> first
        | exact ⟨rfl, id⟩
        | exact ⟨by simp, fun h => addTransaction_length_le _ _ _ _ _ _ h⟩

theorem withdrawMoney_counts (s : Bank) (x : ℚ) (pin : String) (now : Clock) :
    (withdrawMoney s x pin now).2.accounts.length = s.accounts.length
      ∧ (s.transactions.length ≤ MAX_TRANSACTIONS →
          (withdrawMoney s x pin now).2.transactions.length ≤ MAX_TRANSACTIONS) := by
  unfold withdrawMoney
  split
  · exact ⟨rfl, id⟩
  · split
    · exact ⟨rfl, id⟩
    · split_ifs <;> first
        | exact ⟨rfl, id⟩
        | exact ⟨by simp, fun h => addTransaction_length_le _ _ _ _ _ _ h⟩

theorem transferMoney_counts (s : Bank) (dst : Int) (x : ℚ) (pin : String) (now : Clock) :
    (transferMoney s dst x pin now).2.accounts.length = s.accounts.length
      ∧ (s.transactions.length ≤ MAX_TRANSACTIONS →
          (transferMoney s dst x pin now).2.transactions.length ≤ MAX_TRANSACTIONS) := by
  unfold transferMoney
  split
  · exact ⟨rfl, id⟩
  · split
    · exact ⟨rfl, id⟩
    · split
      · exact ⟨rfl, id⟩
      · split
        · exact ⟨rfl, id⟩
        · split_ifs <;> first
            | exact ⟨rfl, id⟩
            | exact ⟨by simp [length_creditAt], fun h =>
                addTransaction_length_le _ _ _ _ _ _
                  (addTransaction_length_le _ _ _ _ _ _ h)⟩

theorem applyForLoan_counts (s : Bank) (x : ℚ) (pin : String) (now : Clock) :
    (applyForLoan s x pin now).2.accounts.length = s.accounts.length
      ∧ (s.transactions.length ≤ MAX_TRANSACTIONS →
          (applyForLoan s x pin now).2.transactions.length ≤ MAX_TRANSACTIONS) := by
  unfold applyForLoan
  split
  · exact ⟨rfl, id⟩
  · split
    · exact ⟨rfl, id⟩
    · split_ifs <;> first
        | exact ⟨rfl, id⟩
        | exact ⟨by simp, fun h => addTransaction_length_le _ _ _ _ _ _ h⟩

theorem repayLoan_counts (s : Bank) (x : ℚ) (pin : String) (now : Clock) :
    (repayLoan s x pin now).2.accounts.length = s.accounts.length
      ∧ (s.transactions.length ≤ MAX_TRANSACTIONS →
          (repayLoan s x pin now).2.transactions.length ≤ MAX_TRANSACTIONS) := by
  unfold repayLoan
  split
  · exact ⟨rfl, id⟩
  · split
    · exact ⟨rfl, id⟩
    · split_ifs <;> first
        | exact ⟨rfl, id⟩
        | exact ⟨by simp, fun h => addTransaction_length_le _ _ _ _ _ _ h⟩

theorem investMoney_counts (s : Bank) (x : ℚ) (pin : String) (now : Clock) :
    (investMoney s x pin now).2.accounts.length = s.accounts.length
      ∧ (s.transactions.length ≤ MAX_TRANSACTIONS →
          (investMoney s x pin now).2.transactions.length ≤ MAX_TRANSACTIONS) := by
  unfold investMoney
  split
  · exact ⟨rfl, id⟩
  · split
    · exact ⟨rfl, id⟩
    · split_ifs <;> first
        | exact ⟨rfl, id⟩
        | exact ⟨by simp, fun h => addTransaction_length_le _ _ _ _ _ _ h⟩

theorem withdrawInvestment_counts (s : Bank) (x : ℚ) (pin : String) (now : Clock) :
    (withdrawInvestment s x pin now).2.accounts.length = s.accounts.length
      ∧ (s.transactions.length ≤ MAX_TRANSACTIONS →
          (withdrawInvestment s x pin now).2.transactions.length ≤ MAX_TRANSACTIONS) := by
  unfold withdrawInvestment
  split
  · exact ⟨rfl, id⟩
  · split
    · exact ⟨rfl, id⟩
    · split_ifs <;> first
        | exact ⟨rfl, id⟩
        | exact ⟨by simp, fun h => addTransaction_length_le _ _ _ _ _ _ h⟩

theorem step_counts (s : Bank) (a : Action) :
    s.accounts.length ≤ (step s a).accounts.length
      ∧ (s.accounts.length ≤ MAX_ACCOUNTS → (step s a).accounts.length ≤ MAX_ACCOUNTS)
      ∧ (s.transactions.length ≤ MAX_TRANSACTIONS →
          (step s a).transactions.length ≤ MAX_TRANSACTIONS) := by
  cases a with
  | register r now => exact registerAccount_counts s r now
  | login n pin =>
    have h := login_counts s n pin
    simp only [step, h.1, h.2]
    exact ⟨le_refl _, id, id⟩
  | logout => exact ⟨le_refl _, id, id⟩
  | updateStatus n c =>
    have h := updateAccountStatus_counts s n c
    simp only [step, h.1, h.2]
    exact ⟨le_refl _, id, id⟩
  | changePIN o n c =>
    have h := changePIN_counts s o n c
    simp only [step, h.1, h.2]
    exact ⟨le_refl _, id, id⟩
  | deposit x pin now =>
    have h := depositMoney_counts s x pin now
    simp only [step, h.1]
    exact ⟨le_refl _, id, h.2⟩
  | withdraw x pin now =>
    have h := withdrawMoney_counts s x pin now
    simp only [step, h.1]
    exact ⟨le_refl _, id, h.2⟩
  | transfer dst x pin now =>
    have h := transferMoney_counts s dst x pin now
    simp only [step, h.1]
    exact ⟨le_refl _, id, h.2⟩
  | applyLoan x pin now =>
    have h := applyForLoan_counts s x pin now
    simp only [step, h.1]
    exact ⟨le_refl _, id, h.2⟩
  | repay x pin now =>
    have h := repayLoan_counts s x pin now
    simp only [step, h.1]
    exact ⟨le_refl _, id, h.2⟩
  | invest x pin now =>
    have h := investMoney_counts s x pin now
    simp only [step, h.1]
    exact ⟨le_refl _, id, h.2⟩
  | divest x pin now =>
    have h := withdrawInvestment_counts s x pin now
    simp only [step, h.1]
    exact ⟨le_refl _, id, h.2⟩

theorem run_counts (acts : List Action) :
    ∀ s : Bank, s.accounts.length ≤ MAX_ACCOUNTS → s.transactions.length ≤ MAX_TRANSACTIONS →
      (run s acts).accounts.length ≤ MAX_ACCOUNTS
        ∧ (run s acts).transactions.length ≤ MAX_TRANSACTIONS := by
  induction acts with
  | nil => intro s h1 h2; exact ⟨h1, h2⟩
  | cons a rest ih =>
    intro s h1 h2
    have h := step_counts s a
    exact ih (step s a) (h.2.1 h1) (h.2.2 h2)

/-- C16: in every store reachable from the empty store the account count is
at most `MAX_ACCOUNTS` = 100 and the transaction count is at most
`MAX_ACCOUNTS * 10` = 1000; a registration attempted when the account count
equals 100 is rejected and leaves the whole store unchanged; and no action
decreases the account count. -/
theorem C16_capacity_bounds (acts : List Action) (s : Bank) (r : Registration) (now : Clock)
    (a : Action) :
    (MAX_ACCOUNTS = 100 ∧ (run Bank.empty acts).accounts.length ≤ MAX_ACCOUNTS)
      ∧ (MAX_TRANSACTIONS = 1000
          ∧ (run Bank.empty acts).transactions.length ≤ MAX_TRANSACTIONS)
      ∧ (s.accounts.length = MAX_ACCOUNTS →
          (registerAccount s r now).1 = Outcome.capacityExceeded
            ∧ (registerAccount s r now).2 = s)
      ∧ s.accounts.length ≤ (step s a).accounts.length := by
  have hrun := run_counts acts Bank.empty (by simp [Bank.empty]) (by simp [Bank.empty])
  refine ⟨⟨rfl, hrun.1⟩, ⟨rfl, hrun.2⟩, fun hfull => ?_, (step_counts s a).1⟩
  unfold registerAccount
  have hge : s.accounts.length ≥ MAX_ACCOUNTS := by omega
  rw [if_pos hge]
  exact ⟨rfl, rfl⟩

/-- Witness of `C16_capacity_bounds`: a registration on a store of 100
accounts is rejected and changes nothing. -/
theorem C16_capacity_bounds_witness :
    (registerAccount demoFullBank demoRegistration demoClock).1 = Outcome.capacityExceeded
      ∧ (registerAccount demoFullBank demoRegistration demoClock).2 = demoFullBank :=
  (C16_capacity_bounds demoActions demoFullBank demoRegistration demoClock Action.logout).2.2.1
    (by simp [demoFullBank, MAX_ACCOUNTS])

/-! ### Frame -/

theorem sameProfile_refl (a : Account) : a.SameProfile a :=
  ⟨rfl, rfl, rfl, rfl, rfl, rfl, rfl, rfl, rfl⟩

theorem sameProfile_trans {a b c : Account} (h1 : a.SameProfile b) (h2 : b.SameProfile c) :
    a.SameProfile c := by
  unfold Account.SameProfile at h1 h2 ⊢
  obtain ⟨a1, a2, a3, a4, a5, a6, a7, a8, a9⟩ := h1
  obtain ⟨b1, b2, b3, b4, b5, b6, b7, b8, b9⟩ := h2
  exact ⟨a1.trans b1, a2.trans b2, a3.trans b3, a4.trans b4, a5.trans b5, a6.trans b6,
    a7.trans b7, a8.trans b8, a9.trans b9⟩

theorem exists_get_set {l : List Account} {cur i : Nat} {user acc : Account}
    (user1 : Account) (P : Account → Account → Prop)
    (hu : l[cur]? = some user) (hi : l[i]? = some acc)
    (hsame : P acc acc) (hP : cur = i → P user user1) :
    ∃ acc' : Account, (l.set cur user1)[i]? = some acc' ∧ P acc acc' := by
  by_cases hci : cur = i
  · subst hci
    have hacc : user = acc := by
      rw [hu] at hi
      exact Option.some.inj hi
    subst hacc
    exact ⟨user1, getElem?_set_same hu, hP rfl⟩
  · refine ⟨acc, ?_, hsame⟩
    rw [List.getElem?_set_ne hci]
    exact hi

theorem frameAt_refl (l : List Account) (touched : Nat → Prop) : FrameAt l l touched :=
  fun _ acc hi => ⟨acc, hi, sameProfile_refl acc, fun _ => rfl⟩

theorem frameAt_set {l : List Account} {cur : Nat} {user user1 : Account}
    {touched : Nat → Prop} (hu : l[cur]? = some user) (hprof : user.SameProfile user1)
    (ht : touched cur) : FrameAt l (l.set cur user1) touched := by
  intro i acc hi
  exact exists_get_set user1
    (fun a b => a.SameProfile b ∧ (¬ touched i → b = a)) hu hi
    ⟨sameProfile_refl acc, fun _ => rfl⟩
    (fun hci => ⟨hprof, fun hnot => absurd (hci ▸ ht) hnot⟩)

theorem frameAt_set_money {l : List Account} {cur : Nat} {user : Account}
    {touched : Nat → Prop} (b lb ib : ℚ) (hu : l[cur]? = some user) (ht : touched cur) :
    FrameAt l
      (l.set cur { user with balance := b, loanBalance := lb, investmentBalance := ib })
      touched :=
  frameAt_set hu ⟨rfl, rfl, rfl, rfl, rfl, rfl, rfl, rfl, rfl⟩ ht

theorem frameAt_trans {l l1 l2 : List Account} {touched : Nat → Prop}
    (h1 : FrameAt l l1 touched) (h2 : FrameAt l1 l2 touched) : FrameAt l l2 touched := by
  intro i acc hi
  obtain ⟨acc1, hi1, hp1, hk1⟩ := h1 i acc hi
  obtain ⟨acc2, hi2, hp2, hk2⟩ := h2 i acc1 hi1
  exact ⟨acc2, hi2, sameProfile_trans hp1 hp2, fun hnot => (hk2 hnot).trans (hk1 hnot)⟩

theorem frameAt_creditAt (l : List Account) (j : Nat) (x : ℚ) {touched : Nat → Prop}
    (ht : touched j) : FrameAt l (creditAt l j x) touched := by
  unfold creditAt
  rcases hj : l[j]? with _ | b
  · exact frameAt_refl l touched
  · exact frameAt_set hj (sameProfile_refl b) ht

theorem depositMoney_frame (s : Bank) (x : ℚ) (pin : String) (now : Clock) :
    FrameAt s.accounts (depositMoney s x pin now).2.accounts
      (fun i => s.currentUser = some i) := by
  unfold depositMoney
  rcases hc : s.currentUser with _ | cur
  · exact frameAt_refl _ _
  · simp only
    rcases hu : s.accounts[cur]? with _ | user
    · exact frameAt_refl _ _
    · simp only
      split_ifs <;> first
        | exact frameAt_refl _ _
        | exact frameAt_set_money _ _ _ hu rfl

theorem withdrawMoney_frame (s : Bank) (x : ℚ) (pin : String) (now : Clock) :
    FrameAt s.accounts (withdrawMoney s x pin now).2.accounts
      (fun i => s.currentUser = some i) := by
  unfold withdrawMoney
  rcases hc : s.currentUser with _ | cur
  · exact frameAt_refl _ _
  · simp only
    rcases hu : s.accounts[cur]? with _ | user
    · exact frameAt_refl _ _
    · simp only
      split_ifs <;> first
        | exact frameAt_refl _ _
        | exact frameAt_set_money _ _ _ hu rfl

theorem applyForLoan_frame (s : Bank) (x : ℚ) (pin : String) (now : Clock) :
    FrameAt s.accounts (applyForLoan s x pin now).2.accounts
      (fun i => s.currentUser = some i) := by
  unfold applyForLoan
  rcases hc : s.currentUser with _ | cur
  · exact frameAt_refl _ _
  · simp only
    rcases hu : s.accounts[cur]? with _ | user
    · exact frameAt_refl _ _
    · simp only
      split_ifs <;> first
        | exact frameAt_refl _ _
        | exact frameAt_set_money _ _ _ hu rfl

theorem repayLoan_frame (s : Bank) (x : ℚ) (pin : String) (now : Clock) :
    FrameAt s.accounts (repayLoan s x pin now).2.accounts
      (fun i => s.currentUser = some i) := by
  unfold repayLoan
  rcases hc : s.currentUser with _ | cur
  · exact frameAt_refl _ _
  · simp only
    rcases hu : s.accounts[cur]? with _ | user
    · exact frameAt_refl _ _
    · simp only
      split_ifs <;> first
        | exact frameAt_refl _ _
        | exact frameAt_set_money _ _ _ hu rfl

theorem investMoney_frame (s : Bank) (x : ℚ) (pin : String) (now : Clock) :
    FrameAt s.accounts (investMoney s x pin now).2.accounts
      (fun i => s.currentUser = some i) := by
  unfold investMoney
  rcases hc : s.currentUser with _ | cur
  · exact frameAt_refl _ _
  · simp only
    rcases hu : s.accounts[cur]? with _ | user
    · exact frameAt_refl _ _
    · simp only
      split_ifs <;> first
        | exact frameAt_refl _ _
        | exact frameAt_set_money _ _ _ hu rfl

theorem withdrawInvestment_frame (s : Bank) (x : ℚ) (pin : String) (now : Clock) :
    FrameAt s.accounts (withdrawInvestment s x pin now).2.accounts
      (fun i => s.currentUser = some i) := by
  unfold withdrawInvestment
  rcases hc : s.currentUser with _ | cur
  · exact frameAt_refl _ _
  · simp only
    rcases hu : s.accounts[cur]? with _ | user
    · exact frameAt_refl _ _
    · simp only
      split_ifs <;> first
        | exact frameAt_refl _ _
        | exact frameAt_set_money _ _ _ hu rfl

theorem transferMoney_frame (s : Bank) (dst : Int) (x : ℚ) (pin : String) (now : Clock) :
    FrameAt s.accounts (transferMoney s dst x pin now).2.accounts
      (fun i => s.currentUser = some i ∨ findAccountIndex s.accounts dst = some i) := by
  unfold transferMoney
  rcases hc : s.currentUser with _ | cur
  · exact frameAt_refl _ _
  · simp only
    rcases hu : s.accounts[cur]? with _ | user
    · exact frameAt_refl _ _
    · simp only
      rcases hf : findAccountIndex s.accounts dst with _ | j
      · exact frameAt_refl _ _
      · simp only
        rcases hd : s.accounts[j]? with _ | dest
        · exact frameAt_refl _ _
        · simp only
          split_ifs <;> first
            | exact frameAt_refl _ _
            | exact frameAt_trans
                (frameAt_set_money _ _ _ hu (Or.inl rfl))
                (frameAt_creditAt _ j x (Or.inr rfl))

theorem registerAccount_get (s : Bank) (r : Registration) (now : Clock) {i : Nat}
    {acc : Account} (hi : s.accounts[i]? = some acc) :
    (registerAccount s r now).2.accounts[i]? = some acc := by
  have hlt : i < s.accounts.length := (List.getElem?_eq_some.1 hi).1
  unfold registerAccount
  simp only
  split_ifs <;> first
    | exact hi
    | (rw [List.getElem?_append_left hlt]; exact hi)

theorem updateAccountStatus_get (s : Bank) (n c : Int) {i : Nat} {acc : Account}
    (hi : s.accounts[i]? = some acc) :
    ∃ acc' : Account, (updateAccountStatus s n c).2.accounts[i]? = some acc'
      ∧ acc'.pin = acc.pin := by
  unfold updateAccountStatus
  rcases hf : findAccountIndex s.accounts n with _ | j
  · exact ⟨acc, hi, rfl⟩
  · simp only
    rcases hj : s.accounts[j]? with _ | b
    · exact ⟨acc, hi, rfl⟩
    · simp only
      split_ifs <;> first
        | exact ⟨acc, hi, rfl⟩
        | exact exists_get_set _ (fun a b => b.pin = a.pin) hj hi rfl (fun _ => rfl)

theorem changePIN_get (s : Bank) (o n c : String) {i : Nat} {acc : Account}
    (hi : s.accounts[i]? = some acc) :
    ∃ acc' : Account, (changePIN s o n c).2.accounts[i]? = some acc'
      ∧ acc'.status = acc.status := by
  unfold changePIN
  rcases hc : s.currentUser with _ | cur
  · exact ⟨acc, hi, rfl⟩
  · simp only
    rcases hu : s.accounts[cur]? with _ | user
    · exact ⟨acc, hi, rfl⟩
    · simp only
      split_ifs <;> first
        | exact ⟨acc, hi, rfl⟩
        | exact exists_get_set _ (fun a b => b.status = a.status) hu hi rfl (fun _ => rfl)

theorem frame_of_frameAt {s : Bank} {a : Action} {l' : List Account} {touched : Nat → Prop}
    (hframe : FrameAt s.accounts l' touched) (ht : ∀ i, touched i → touches s a i)
    {i : Nat} {acc : Account} (hi : s.accounts[i]? = some acc) :
    ∃ acc' : Account, l'[i]? = some acc'
      ∧ (a.isMoney = true → acc.SameProfile acc' ∧ (¬ touches s a i → acc' = acc))
      ∧ ((∀ o n c, a ≠ Action.changePIN o n c) → acc'.pin = acc.pin)
      ∧ ((∀ n c, a ≠ Action.updateStatus n c) → acc'.status = acc.status) := by
  obtain ⟨acc', h1, hp, hk⟩ := hframe i acc hi
  refine ⟨acc', h1, fun _ => ⟨hp, fun hnot => hk (fun h => hnot (ht i h))⟩, fun _ => ?_,
    fun _ => ?_⟩
  · exact hp.2.2.2.2.2.2.2.1.symm
  · exact hp.2.2.2.2.2.2.1.symm

/-- C18: for every store, every action and every account `acc` stored at a
slot `i`, the slot is still filled after the action, by an account `acc'`
such that: when the action is one of the seven money operations, `acc'` has
the account number, holder name, age, address, phone, account type, status,
PIN and role of `acc`, and `acc' = acc` unless `i` is the slot of
`currentUser` or, for a transfer, the slot `findAccountIndex` gives for the
destination; the PIN of `acc'` is that of `acc` unless the action is
`changePIN`; and the status of `acc'` is that of `acc` unless the action is
`updateAccountStatus`. -/
theorem C18_frame (s : Bank) (a : Action) (i : Nat) (acc : Account)
    (hi : s.accounts[i]? = some acc) :
    ∃ acc' : Account, (step s a).accounts[i]? = some acc'
      ∧ (a.isMoney = true → acc.SameProfile acc' ∧ (¬ touches s a i → acc' = acc))
      ∧ ((∀ o n c, a ≠ Action.changePIN o n c) → acc'.pin = acc.pin)
      ∧ ((∀ n c, a ≠ Action.updateStatus n c) → acc'.status = acc.status) := by
  cases a with
  | register r now =>
    exact ⟨acc, registerAccount_get s r now hi, fun h => by simp [Action.isMoney] at h, fun _ => rfl,
      fun _ => rfl⟩
  | login n pin =>
    refine ⟨acc, ?_, fun h => by simp [Action.isMoney] at h, fun _ => rfl, fun _ => rfl⟩
    simp only [step, (login_counts s n pin).1]
    exact hi
  | logout => exact ⟨acc, hi, fun h => by simp [Action.isMoney] at h, fun _ => rfl, fun _ => rfl⟩
  | updateStatus n c =>
    obtain ⟨acc', h1, hpin⟩ := updateAccountStatus_get s n c hi
    exact ⟨acc', h1, fun h => by simp [Action.isMoney] at h, fun _ => hpin, fun h => absurd rfl (h n c)⟩
  | changePIN o n c =>
    obtain ⟨acc', h1, hst⟩ := changePIN_get s o n c hi
    exact ⟨acc', h1, fun h => by simp [Action.isMoney] at h, fun h => absurd rfl (h o n c), fun _ => hst⟩
  | deposit x pin now =>
    exact frame_of_frameAt (depositMoney_frame s x pin now) (fun _ h => Or.inl h) hi
  | withdraw x pin now =>
    exact frame_of_frameAt (withdrawMoney_frame s x pin now) (fun _ h => Or.inl h) hi
  | transfer dst x pin now =>
    have ht : ∀ j : Nat,
        (s.currentUser = some j ∨ findAccountIndex s.accounts dst = some j) →
          touches s (Action.transfer dst x pin now) j := by
      intro j h
      rcases h with h | h
      · exact Or.inl h
      · exact Or.inr ⟨dst, rfl, h⟩
    exact frame_of_frameAt (transferMoney_frame s dst x pin now) ht hi
  | applyLoan x pin now =>
    exact frame_of_frameAt (applyForLoan_frame s x pin now) (fun _ h => Or.inl h) hi
  | repay x pin now =>
    exact frame_of_frameAt (repayLoan_frame s x pin now) (fun _ h => Or.inl h) hi
  | invest x pin now =>
    exact frame_of_frameAt (investMoney_frame s x pin now) (fun _ h => Or.inl h) hi
  | divest x pin now =>
    exact frame_of_frameAt (withdrawInvestment_frame s x pin now) (fun _ h => Or.inl h) hi

/-- Witness of `C18_frame`: a transfer of 40.00 from the first to the second
of three accounts leaves the third account as it was. -/
theorem C18_frame_witness :
    ∃ acc' : Account,
      (step demoTrio (Action.transfer 654321 40 "1234" demoClock)).accounts[2]? = some acc'
        ∧ ((Action.transfer 654321 40 "1234" demoClock).isMoney = true →
            (demoAccount 777777 9).SameProfile acc'
              ∧ (¬ touches demoTrio (Action.transfer 654321 40 "1234" demoClock) 2 →
                  acc' = demoAccount 777777 9))
        ∧ ((∀ o n c, Action.transfer 654321 40 "1234" demoClock ≠ Action.changePIN o n c) →
            acc'.pin = (demoAccount 777777 9).pin)
        ∧ ((∀ n c, Action.transfer 654321 40 "1234" demoClock ≠ Action.updateStatus n c) →
            acc'.status = (demoAccount 777777 9).status) :=
  C18_frame demoTrio (Action.transfer 654321 40 "1234" demoClock) 2 (demoAccount 777777 9) rfl

/-! ### Rounding in binary64 -/

theorem bitsAux_le_iff (fuel : Nat) :
    ∀ n k : Nat, n ≤ fuel → (bitsAux fuel n ≤ k ↔ n < 2 ^ k) := by
  induction fuel with
  | zero =>
    intro n k hn
    have h0 : n = 0 := by omega
    subst h0
    simp [bitsAux]
  | succ f ih =>
    intro n k hn
    unfold bitsAux
    by_cases h0 : n = 0
    · subst h0
      simp
    · rw [if_neg h0]
      cases k with
      | zero =>
        simp only [pow_zero]
        omega
      | succ k =>
        have hhalf : bitsAux f (n / 2) ≤ k ↔ n / 2 < 2 ^ k := ih (n / 2) k (by omega)
        rw [Nat.add_le_add_iff_right, hhalf, pow_succ]
        omega

theorem bitLength_le_iff (n k : Nat) : bitLength n ≤ k ↔ n < 2 ^ k :=
  bitsAux_le_iff n n k (le_refl n)

theorem lt_two_pow_bitLength (n : Nat) : n < 2 ^ bitLength n :=
  (bitLength_le_iff n (bitLength n)).1 (le_refl _)

theorem bitLength_mono {m n : Nat} (h : m ≤ n) : bitLength m ≤ bitLength n :=
  (bitLength_le_iff m (bitLength n)).2 (lt_of_le_of_lt h (lt_two_pow_bitLength n))

theorem two_pow_le_of_bitLength {n k : Nat} (h : k < bitLength n) : 2 ^ k ≤ n := by
  by_contra hlt
  have := (bitLength_le_iff n k).2 (by omega)
  omega

theorem roundNat_of_short {n : Nat} (h : bitLength n ≤ 53) : roundNat n = n := by
  unfold roundNat
  rw [if_pos h]

theorem roundNat_zero : roundNat 0 = 0 :=
  roundNat_of_short ((bitLength_le_iff 0 53).2 (by positivity))

theorem roundNat_long {n : Nat} (h : ¬ bitLength n ≤ 53) :
    roundNat n = (n / 2 ^ (bitLength n - 53)) * 2 ^ (bitLength n - 53)
      ∨ roundNat n = (n / 2 ^ (bitLength n - 53) + 1) * 2 ^ (bitLength n - 53) := by
  unfold roundNat
  rw [if_neg h]
  simp only
  split_ifs
  · exact Or.inl rfl
  · exact Or.inr rfl

theorem truncation_le_roundNat {n : Nat} (h : ¬ bitLength n ≤ 53) :
    (n / 2 ^ (bitLength n - 53)) * 2 ^ (bitLength n - 53) ≤ roundNat n := by
  rcases roundNat_long h with h1 | h1 <;> rw [h1]
  exact Nat.mul_le_mul_right _ (Nat.le_succ _)

/-- Rounding never passes below a value that rounding leaves alone. -/
theorem le_roundNat {y n : Nat} (hy : roundNat y = y) (h : y ≤ n) : y ≤ roundNat n := by
  by_cases hn : bitLength n ≤ 53
  · rw [roundNat_of_short hn]
    exact h
  · refine le_trans ?_ (truncation_le_roundNat hn)
    have hsh : bitLength n - 53 + 52 = bitLength n - 1 := by omega
    have hmono := bitLength_mono h
    by_cases hlen : bitLength y < bitLength n
    · have h1 : y < 2 ^ bitLength y := lt_two_pow_bitLength y
      have h2 : 2 ^ bitLength y ≤ 2 ^ (bitLength n - 1) :=
        Nat.pow_le_pow_right (by norm_num) (by omega)
      have h3 : 2 ^ (bitLength n - 1) ≤ n := two_pow_le_of_bitLength (by omega)
      have h4 : 2 ^ 52 ≤ n / 2 ^ (bitLength n - 53) := by
        rw [Nat.le_div_iff_mul_le (by positivity), ← pow_add]
        have : 52 + (bitLength n - 53) = bitLength n - 1 := by omega
        rw [this]
        exact h3
      have h5 : 2 ^ (bitLength n - 1) ≤ n / 2 ^ (bitLength n - 53) * 2 ^ (bitLength n - 53) := by
        have : 2 ^ (bitLength n - 1) = 2 ^ 52 * 2 ^ (bitLength n - 53) := by
          rw [← pow_add]
          congr 1
          omega
        rw [this]
        exact Nat.mul_le_mul_right _ h4
      omega
    · have heq : bitLength y = bitLength n := by omega
      have hlong : ¬ bitLength y ≤ 53 := by omega
      have hmul : ∃ c : Nat, y = c * 2 ^ (bitLength n - 53) := by
        rcases roundNat_long hlong with h1 | h1
        · exact ⟨_, by rw [← heq]; exact hy.symm.trans h1⟩
        · exact ⟨_, by rw [← heq]; exact hy.symm.trans h1⟩
      obtain ⟨c, hc⟩ := hmul
      rw [hc]
      refine Nat.mul_le_mul_right _ ?_
      rw [Nat.le_div_iff_mul_le (by positivity), ← hc]
      exact h

theorem roundNat_pos {n : Nat} (h : 0 < n) : 0 < roundNat n := by
  have h1 : roundNat 1 = 1 := roundNat_of_short ((bitLength_le_iff 1 53).2 (by norm_num))
  have := le_roundNat h1 h
  omega

namespace Double

theorem overflow_pos : 0 < overflow := by
  unfold overflow
  positivity

theorem round_zero : round 0 = finite 0 := by
  unfold round
  have h := overflow_pos
  rw [Int.natAbs_zero, roundNat_zero, if_neg (by omega)]
  rfl

theorem zero_eq : (0 : Double) = finite 0 := by
  show ofNat 0 = finite 0
  unfold ofNat
  rw [Nat.cast_zero, zero_mul, round_zero]

theorem finite_le_finite (a b : Int) : (finite a ≤ finite b) ↔ a ≤ b := by
  show le (finite a) (finite b) = true ↔ a ≤ b
  rw [le, decide_eq_true_iff]

theorem finite_lt_finite (a b : Int) : (finite a < finite b) ↔ a < b := by
  show lt (finite a) (finite b) = true ↔ a < b
  rw [lt, decide_eq_true_iff]

theorem finite_add_finite (a b : Int) : finite a + finite b = round (a + b) := by
  show add (finite a) (finite b) = round (a + b)
  rw [add]

theorem neg_finite (a : Int) : -(finite a) = finite (-a) := by
  show neg (finite a) = finite (-a)
  rw [neg]

theorem finite_sub_finite (a b : Int) : finite a - finite b = round (a - b) := by
  show add (finite a) (neg (finite b)) = round (a - b)
  rw [neg, add, Int.sub_eq_add_neg]

theorem round_of_representable {n : Int} (h : (finite n).Representable) : round n = finite n := by
  obtain ⟨h1, h2⟩ := h
  unfold round
  rw [h1, if_neg (by omega)]
  congr 1
  split_ifs with hneg
  · omega
  · omega

theorem zero_le_round {n : Int} (h : 0 ≤ n) : (0 : Double) ≤ round n := by
  rw [zero_eq]
  unfold round
  have hneg : ¬ n < 0 := by omega
  simp only [hneg, if_false]
  split_ifs
  · rfl
  · rw [finite_le_finite]
    omega

theorem zero_lt_round {n : Int} (h : 0 < n) : (0 : Double) < round n := by
  rw [zero_eq]
  unfold round
  have hneg : ¬ n < 0 := by omega
  simp only [hneg, if_false]
  split_ifs
  · rfl
  · rw [finite_lt_finite]
    have := roundNat_pos (n := n.natAbs) (by omega)
    omega

/-- A sum or difference is never rounded below a representable value that
the exact result reaches. -/
theorem finite_le_round {y n : Int} (hy0 : 0 ≤ y) (hy : (finite y).Representable)
    (h : y ≤ n) : finite y ≤ round n := by
  unfold round
  have hneg : ¬ n < 0 := by omega
  simp only [hneg, if_false]
  split_ifs
  · rfl
  · rw [finite_le_finite]
    have := le_roundNat hy.1 (show y.natAbs ≤ n.natAbs by omega)
    omega

theorem add_neg_self (a : Int) : finite a + -(finite a) = 0 := by
  rw [neg_finite, finite_add_finite, zero_eq, add_neg_cancel, round_zero]

theorem not_lt_of_le {a b : Double} (h : a ≤ b) : ¬ b < a := by
  have h1 : le a b = true := h
  show ¬ lt b a = true
  cases a <;> cases b <;> simp only [le, lt, decide_eq_true_iff] at h1 ⊢ <;>
    first | omega | simp at h1 | simp

end Double

/-! ### The ledger over binary64 -/

theorem getElem?_set_of_getElem? {α : Type} {l : List α} {i : Nat} {a b : α}
    (h : l[i]? = some a) : (l.set i b)[i]? = some b := by
  have hlt : i < l.length := (List.getElem?_eq_some.1 h).1
  rw [List.getElem?_set]
  simp [hlt]

namespace Binary64

theorem shiftLoop_append64 (rest : List Transaction) :
    ∀ (pre : List Transaction) (x : Transaction),
      ∃ last, shiftLoop (pre ++ x :: rest) pre.length rest.length = pre ++ rest ++ [last] := by
  induction rest with
  | nil => intro pre x; exact ⟨x, by simp [shiftLoop]⟩
  | cons y rest ih =>
    intro pre x
    obtain ⟨last, hlast⟩ := ih (pre ++ [y]) y
    refine ⟨last, ?_⟩
    have hget : (pre ++ x :: y :: rest)[pre.length + 1]? = some y := by
      rw [List.getElem?_append_right (by omega)]
      simp
    have hset : (pre ++ x :: y :: rest).set pre.length y = (pre ++ [y]) ++ y :: rest := by
      simp
    simp only [List.length_cons, shiftLoop, hget, hset]
    have hlen : (pre ++ [y]).length = pre.length + 1 := by simp
    rw [hlen] at hlast
    rw [hlast]
    simp

theorem shiftLoop_take64 (ts : List Transaction) :
    (shiftLoop ts 0 (ts.length - 1)).take (ts.length - 1) = ts.tail := by
  cases ts with
  | nil => simp [shiftLoop]
  | cons x rest =>
    obtain ⟨last, hlast⟩ := shiftLoop_append64 rest [] x
    simp only [List.nil_append, List.length_nil] at hlast
    simp only [List.length_cons, Nat.add_sub_cancel, List.tail_cons, hlast]
    simp

theorem addTransaction_eq64 (ts : List Transaction) (accountNumber : Int)
    (description : String) (amount balanceAfter : Double) (now : Clock) :
    addTransaction ts accountNumber description amount balanceAfter now
      = keptRecords ts ++ [newTransaction accountNumber description amount balanceAfter now] := by
  unfold addTransaction keptRecords
  simp only [shiftLoop_take64]

theorem keptRecords_of_room {ts : List Transaction} (h : ts.length < MAX_TRANSACTIONS) :
    keptRecords ts = ts := by
  unfold keptRecords
  have hnot : ¬ ts.length ≥ MAX_TRANSACTIONS := by omega
  simp only [hnot, if_false]

theorem keptRecords_append_one (l : List Transaction) (r : Transaction) :
    keptRecords (l ++ [r])
      = (if l.length + 1 ≥ MAX_TRANSACTIONS then l.tail else l) ++ [r] := by
  unfold keptRecords
  simp only [List.length_append, List.length_singleton]
  split_ifs with h
  · cases l with
    | nil => simp [MAX_TRANSACTIONS, MAX_ACCOUNTS] at h
    | cons a rest => simp
  · rfl

theorem two_records64 (ts : List Transaction) (r1 r2 : Transaction) :
    ∃ kept : List Transaction,
      keptRecords (keptRecords ts ++ [r1]) ++ [r2] = kept ++ [r1, r2]
        ∧ (ts.length + 2 ≤ MAX_TRANSACTIONS → kept = ts) := by
  refine ⟨if (keptRecords ts).length + 1 ≥ MAX_TRANSACTIONS then (keptRecords ts).tail
    else keptRecords ts, ?_, fun hroom => ?_⟩
  · rw [keptRecords_append_one]
    simp
  · have h1 : keptRecords ts = ts := keptRecords_of_room (by omega)
    rw [h1]
    have hnot : ¬ ts.length + 1 ≥ MAX_TRANSACTIONS := by omega
    simp only [hnot, if_false]

theorem creditAt_at {l : List Account} {i : Nat} {a : Account} (x : Double)
    (h : l[i]? = some a) :
    (creditAt l i x)[i]? = some { a with balance := a.balance + x } := by
  unfold creditAt
  rw [h]
  exact getElem?_set_of_getElem? h

theorem creditAt_elsewhere {l : List Account} {i j : Nat} (x : Double) (h : i ≠ j) :
    (creditAt l i x)[j]? = l[j]? := by
  unfold creditAt
  split
  · exact List.getElem?_set_ne h
  · rfl

theorem balanceAt_eq {l : List Account} {i : Nat} {a : Account} (h : l[i]? = some a) :
    balanceAt l i = a.balance := by
  unfold balanceAt
  rw [h]

theorem findAccountIndexFrom_found (l : List Account) :
    ∀ (k j : Nat) (n : Int), findAccountIndexFrom l k n = some j →
      k ≤ j ∧ ∀ B : Account, l[j - k]? = some B → B.accountNumber = n := by
  induction l with
  | nil => intro k j n h; simp [findAccountIndexFrom] at h
  | cons a rest ih =>
    intro k j n h
    unfold findAccountIndexFrom at h
    split_ifs at h with ha
    · have hj : k = j := Option.some.inj h
      subst hj
      refine ⟨le_refl _, fun B hB => ?_⟩
      simp only [Nat.sub_self, List.getElem?_cons_zero] at hB
      rw [← Option.some.inj hB]
      exact ha
    · obtain ⟨hle, hnum⟩ := ih (k + 1) j n h
      refine ⟨by omega, fun B hB => ?_⟩
      have hjk : j - k = (j - (k + 1)) + 1 := by omega
      rw [hjk, List.getElem?_cons_succ] at hB
      exact hnum B hB

theorem findAccountIndex_found {l : List Account} {j : Nat} {n : Int} {B : Account}
    (h : findAccountIndex l n = some j) (hB : l[j]? = some B) : B.accountNumber = n :=
  (findAccountIndexFrom_found l 0 j n h).2 B hB

theorem depositMoney_spec (s : Bank) (cur : Nat) (A : Account) (x : Double) (pin : String)
    (now : Clock) (hcur : s.currentUser = some cur) (hA : s.accounts[cur]? = some A) :
    ((depositMoney s x pin now).1 = Outcome.success
        ↔ ¬ x ≤ 0 ∧ A.pin = pin ∧ A.status = ACTIVE)
      ∧ ((depositMoney s x pin now).1 = Outcome.success →
          (depositMoney s x pin now).2
            = { s with
                accounts := s.accounts.set cur { A with balance := A.balance + x }
                transactions :=
                  addTransaction s.transactions A.accountNumber "Deposit" x (A.balance + x)
                    now }) := by
  unfold depositMoney
  simp only [hcur, hA]
  split_ifs <;> simp_all

theorem withdrawMoney_spec (s : Bank) (cur : Nat) (A : Account) (x : Double) (pin : String)
    (now : Clock) (hcur : s.currentUser = some cur) (hA : s.accounts[cur]? = some A) :
    ((withdrawMoney s x pin now).1 = Outcome.success
        ↔ ¬ x ≤ 0 ∧ A.pin = pin ∧ A.status = ACTIVE ∧ ¬ x > A.balance)
      ∧ ((withdrawMoney s x pin now).1 = Outcome.success →
          (withdrawMoney s x pin now).2
            = { s with
                accounts := s.accounts.set cur { A with balance := A.balance - x }
                transactions :=
                  addTransaction s.transactions A.accountNumber "Withdrawal" (-x)
                    (A.balance - x) now }) := by
  unfold withdrawMoney
  simp only [hcur, hA]
  split_ifs <;> simp_all

theorem applyForLoan_spec (s : Bank) (cur : Nat) (A : Account) (x : Double) (pin : String)
    (now : Clock) (hcur : s.currentUser = some cur) (hA : s.accounts[cur]? = some A) :
    ((applyForLoan s x pin now).1 = Outcome.success
        ↔ ¬ x ≤ 0 ∧ A.pin = pin ∧ A.status = ACTIVE)
      ∧ ((applyForLoan s x pin now).1 = Outcome.success →
          (applyForLoan s x pin now).2
            = { s with
                accounts :=
                  s.accounts.set cur
                    { A with balance := A.balance + x, loanBalance := A.loanBalance + x }
                transactions :=
                  addTransaction s.transactions A.accountNumber "Loan Disbursement" x
                    (A.balance + x) now }) := by
  unfold applyForLoan
  simp only [hcur, hA]
  split_ifs <;> simp_all

theorem repayLoan_spec (s : Bank) (cur : Nat) (A : Account) (x : Double) (pin : String)
    (now : Clock) (hcur : s.currentUser = some cur) (hA : s.accounts[cur]? = some A) :
    ((repayLoan s x pin now).1 = Outcome.success
        ↔ ¬ A.loanBalance ≤ 0 ∧ ¬ x ≤ 0 ∧ A.pin = pin ∧ ¬ x > A.balance)
      ∧ ((repayLoan s x pin now).1 = Outcome.success →
          (repayLoan s x pin now).2
            = { s with
                accounts :=
                  s.accounts.set cur
                    { A with
                      balance :=
                        A.balance - (if x > A.loanBalance then A.loanBalance else x)
                      loanBalance :=
                        A.loanBalance - (if x > A.loanBalance then A.loanBalance else x) }
                transactions :=
                  addTransaction s.transactions A.accountNumber "Loan Repayment"
                    (-(if x > A.loanBalance then A.loanBalance else x))
                    (A.balance - (if x > A.loanBalance then A.loanBalance else x)) now }) := by
  unfold repayLoan
  simp only [hcur, hA]
  split_ifs <;> simp_all

theorem investMoney_spec (s : Bank) (cur : Nat) (A : Account) (x : Double) (pin : String)
    (now : Clock) (hcur : s.currentUser = some cur) (hA : s.accounts[cur]? = some A) :
    ((investMoney s x pin now).1 = Outcome.success
        ↔ ¬ x ≤ 0 ∧ A.pin = pin ∧ A.status = ACTIVE ∧ ¬ x > A.balance)
      ∧ ((investMoney s x pin now).1 = Outcome.success →
          (investMoney s x pin now).2
            = { s with
                accounts :=
                  s.accounts.set cur
                    { A with
                      balance := A.balance - x
                      investmentBalance := A.investmentBalance + x }
                transactions :=
                  addTransaction s.transactions A.accountNumber "Investment" (-x)
                    (A.balance - x) now }) := by
  unfold investMoney
  simp only [hcur, hA]
  split_ifs <;> simp_all

theorem withdrawInvestment_spec (s : Bank) (cur : Nat) (A : Account) (x : Double)
    (pin : String) (now : Clock) (hcur : s.currentUser = some cur)
    (hA : s.accounts[cur]? = some A) :
    ((withdrawInvestment s x pin now).1 = Outcome.success
        ↔ ¬ A.investmentBalance ≤ 0 ∧ ¬ x ≤ 0 ∧ A.pin = pin ∧ ¬ x > A.investmentBalance)
      ∧ ((withdrawInvestment s x pin now).1 = Outcome.success →
          (withdrawInvestment s x pin now).2
            = { s with
                accounts :=
                  s.accounts.set cur
                    { A with
                      balance := A.balance + x
                      investmentBalance := A.investmentBalance - x }
                transactions :=
                  addTransaction s.transactions A.accountNumber "Investment Withdrawal" x
                    (A.balance + x) now }) := by
  unfold withdrawInvestment
  simp only [hcur, hA]
  split_ifs <;> simp_all

theorem transferMoney_spec (s : Bank) (cur j : Nat) (A B : Account) (dst : Int) (x : Double)
    (pin : String) (now : Clock)
    (hcur : s.currentUser = some cur) (hA : s.accounts[cur]? = some A)
    (hfind : findAccountIndex s.accounts dst = some j) (hB : s.accounts[j]? = some B) :
    ((transferMoney s dst x pin now).1 = Outcome.success
        ↔ ¬ x ≤ 0 ∧ A.pin = pin ∧ A.status = ACTIVE ∧ B.status = ACTIVE ∧ ¬ x > A.balance)
      ∧ ((transferMoney s dst x pin now).1 = Outcome.success →
          (transferMoney s dst x pin now).2
            = { s with
                accounts :=
                  creditAt (s.accounts.set cur { A with balance := A.balance - x }) j x
                transactions :=
                  addTransaction
                    (addTransaction s.transactions A.accountNumber "Transfer Out" (-x)
                      (balanceAt
                        (creditAt (s.accounts.set cur { A with balance := A.balance - x }) j x)
                        cur)
                      now)
                    dst "Transfer In" x
                    (balanceAt
                      (creditAt (s.accounts.set cur { A with balance := A.balance - x }) j x)
                      j)
                    now })
      ∧ ((transferMoney s dst x pin now).1 ≠ Outcome.success →
          (transferMoney s dst x pin now).2 = s) := by
  unfold transferMoney
  simp only [hcur, hA, hfind, hB]
  split_ifs <;> simp_all

end Binary64

namespace Double

theorem not_le_of_lt {a b : Double} (h : a < b) : ¬ b ≤ a := by
  have h1 : lt a b = true := h
  show ¬ le b a = true
  cases a <;> cases b <;> simp only [le, lt, decide_eq_true_iff] at h1 ⊢ <;>
    first | omega | simp at h1 | simp

theorem not_finite_le_zero {xn : Int} (h : 0 < xn) : ¬ finite xn ≤ 0 := by
  rw [zero_eq, finite_le_finite]
  omega

/-- Adding a positive amount to a non-negative balance gives a positive
result. -/
theorem zero_lt_add {a : Double} {xn : Int} (ha : 0 ≤ a) (hx : 0 < xn) :
    0 < a + finite xn := by
  rw [zero_eq] at ha
  cases a with
  | finite n =>
    rw [finite_le_finite] at ha
    rw [finite_add_finite]
    exact zero_lt_round (by omega)
  | posInf => rw [zero_eq]; rfl
  | negInf => exact absurd ha (by decide)
  | nan => exact absurd ha (by decide)

/-- Adding a representable positive amount to a non-negative balance gives
at least that amount. -/
theorem le_add_of_nonneg {a : Double} {xn : Int} (ha : 0 ≤ a) (hx : 0 < xn)
    (hrep : (finite xn).Representable) : finite xn ≤ a + finite xn := by
  rw [zero_eq] at ha
  cases a with
  | finite n =>
    rw [finite_le_finite] at ha
    rw [finite_add_finite]
    exact finite_le_round (by omega) hrep (by omega)
  | posInf => rfl
  | negInf => exact absurd ha (by decide)
  | nan => exact absurd ha (by decide)

theorem add_exact {a b : Int} (h : (finite (a + b)).Representable) :
    finite a + finite b = finite (a + b) := by
  rw [finite_add_finite, round_of_representable h]

theorem sub_exact {a b : Int} (h : (finite (a - b)).Representable) :
    finite a - finite b = finite (a - b) := by
  rw [finite_sub_finite, round_of_representable h]

theorem sub_self_finite (a : Int) : finite a - finite a = 0 := by
  rw [finite_sub_finite, sub_self, round_zero, zero_eq]

theorem not_posInf_lt (x : Double) : ¬ posInf < x := by
  show ¬ lt posInf x = true
  cases x <;> simp [lt]

theorem lt_of_lt_of_lt {a b c : Double} (h1 : a < b) (h2 : b < c) : a < c := by
  have g1 : lt a b = true := h1
  have g2 : lt b c = true := h2
  show lt a c = true
  cases a <;> cases b <;> cases c <;> simp only [lt, decide_eq_true_iff] at g1 g2 ⊢ <;>
    first | omega | simp at g1 | simp at g2

end Double

namespace Binary64

/-! ### Stored accounts and records -/

theorem recorded_of_state {s s1 : Bank} {cur : Nat} {A A1 : Account} {description : String}
    {amount : Double} {now : Clock} (hA : s.accounts[cur]? = some A)
    (hs : s1
      = { s with
          accounts := s.accounts.set cur A1
          transactions :=
            addTransaction s.transactions A1.accountNumber description amount A1.balance now }) :
    Recorded s s1 cur A1 description amount now := by
  subst hs
  exact ⟨getElem?_set_of_getElem? hA, addTransaction_eq64 _ _ _ _ _ _⟩

theorem transfer_accounts64 {l : List Account} {cur j : Nat} {A B : Account} (x : Double)
    (hA : l[cur]? = some A) (hB : l[j]? = some B) :
    (cur ≠ j →
        (creditAt (l.set cur { A with balance := A.balance - x }) j x)[cur]?
            = some { A with balance := A.balance - x }
          ∧ (creditAt (l.set cur { A with balance := A.balance - x }) j x)[j]?
            = some { B with balance := B.balance + x })
      ∧ (cur = j →
          (creditAt (l.set cur { A with balance := A.balance - x }) j x)[cur]?
            = some { A with balance := A.balance - x + x }) := by
  have h1 : (l.set cur { A with balance := A.balance - x })[cur]?
      = some { A with balance := A.balance - x } := getElem?_set_of_getElem? hA
  refine ⟨fun hne => ⟨?_, ?_⟩, fun heq => ?_⟩
  · rw [creditAt_elsewhere x (Ne.symm hne)]
    exact h1
  · have h2 : (l.set cur { A with balance := A.balance - x })[j]? = some B := by
      rw [List.getElem?_set_ne hne]
      exact hB
    exact creditAt_at x h2
  · subst heq
    exact creditAt_at x h1

theorem account_restore64 (A : Account) (b i : Double) (hb : b = A.balance)
    (hi : i = A.investmentBalance) :
    ({ A with balance := b, investmentBalance := i } : Account) = A := by
  subst hb hi
  rfl

/-! ### Non-negativity -/

/-- C1 (the code at the failing input): from the empty store, the
registration with 100.00 and the login are accepted and give the store
`demoSession64`; `Deposit` of the amount read from `1e999`, which is `+inf`,
is accepted, the following `Withdraw` of the same amount is accepted too,
and the stored balance is then NaN, for which `balance >= 0` is false. A
`Deposit` of NaN is accepted as well and stores NaN. -/
theorem C1_infinite_amount_stores_nan :
    hugeAmount = Double.posInf
      ∧ (registerAccount Bank.empty demoRegistration64 demoClock).1 = Outcome.success
      ∧ (login (registerAccount Bank.empty demoRegistration64 demoClock).2 223456 "1234").1
          = Outcome.success
      ∧ demoSession64.accounts.map (fun a => a.balance) = [100]
      ∧ (depositMoney demoSession64 hugeAmount "1234" demoClock).1 = Outcome.success
      ∧ (withdrawMoney (depositMoney demoSession64 hugeAmount "1234" demoClock).2 hugeAmount
          "1234" demoClock).1 = Outcome.success
      ∧ (withdrawMoney (depositMoney demoSession64 hugeAmount "1234" demoClock).2 hugeAmount
          "1234" demoClock).2.accounts.map (fun a => a.balance) = [Double.nan]
      ∧ ¬ ((0 : Double) ≤ Double.nan)
      ∧ (depositMoney demoSession64 Double.nan "1234" demoClock).1 = Outcome.success
      ∧ (depositMoney demoSession64 Double.nan "1234" demoClock).2.accounts.map
          (fun a => a.balance) = [Double.nan] := by
  decide!

/-! ### Transfers -/

/-- C4 (counterexample): with balances 0.3 and 0.7, a transfer of 0.1 from
the first account to the second is accepted; the first balance becomes
`0.3 - 0.1` and the second `0.7 + 0.1` as binary64 computes them, and the
sum of the two balances after the transfer differs from the sum before it,
both as an exact sum and as the sum C computes; the second balance grew by
less than 0.1. -/
theorem C4_transfer_changes_sum :
    (transferMoney (demoPair64 (Double.ofRat (3 / 10)) (Double.ofRat (7 / 10))) 654321
        (Double.ofRat (1 / 10)) "1234" demoClock).1 = Outcome.success
      ∧ (transferMoney (demoPair64 (Double.ofRat (3 / 10)) (Double.ofRat (7 / 10))) 654321
          (Double.ofRat (1 / 10)) "1234" demoClock).2.accounts.map (fun a => a.balance)
          = [Double.ofRat (3 / 10) - Double.ofRat (1 / 10),
            Double.ofRat (7 / 10) + Double.ofRat (1 / 10)]
      ∧ (Double.ofRat (3 / 10) - Double.ofRat (1 / 10)).units
            + (Double.ofRat (7 / 10) + Double.ofRat (1 / 10)).units
          ≠ (Double.ofRat (3 / 10)).units + (Double.ofRat (7 / 10)).units
      ∧ (Double.ofRat (3 / 10) - Double.ofRat (1 / 10))
            + (Double.ofRat (7 / 10) + Double.ofRat (1 / 10))
          ≠ Double.ofRat (3 / 10) + Double.ofRat (7 / 10)
      ∧ (Double.ofRat (7 / 10) + Double.ofRat (1 / 10)).units - (Double.ofRat (7 / 10)).units
          < (Double.ofRat (1 / 10)).units
      ∧ Double.ofRat (7 / 10) + Double.ofRat (1 / 10) - Double.ofRat (7 / 10)
          ≠ Double.ofRat (1 / 10) := by
  decide!

/-- C4 (amended): for a logged-in source account `A` (at index `cur`) and a
destination number that `findAccountIndex` resolves to account `B` (at
index `j`, which may be `cur`), `transferMoney` is accepted exactly under
its guards; a rejected transfer leaves both accounts, hence the sum of their
balances, as they were; an accepted one with `cur ≠ j` stores the binary64
difference `A.balance - x` for the source and the binary64 sum
`B.balance + x` for the destination, and with `cur = j` it stores
`A.balance - x + x`. When the difference and the sum are representable, the
source balance decreases by exactly `x`, the destination balance increases
by exactly `x` and the sum of the two balances is the one before; a
self-transfer whose difference is representable restores the balance. -/
theorem C4_transfer_rounded (s : Bank) (cur j : Nat) (A B : Account) (dst : Int)
    (x : Double) (pin : String) (now : Clock)
    (hcur : s.currentUser = some cur) (hA : s.accounts[cur]? = some A)
    (hfind : findAccountIndex s.accounts dst = some j) (hB : s.accounts[j]? = some B) :
    ((transferMoney s dst x pin now).1 = Outcome.success
        ↔ ¬ x ≤ 0 ∧ A.pin = pin ∧ A.status = ACTIVE ∧ B.status = ACTIVE ∧ ¬ x > A.balance)
      ∧ ((transferMoney s dst x pin now).1 ≠ Outcome.success →
          (transferMoney s dst x pin now).2.accounts[cur]? = some A
            ∧ (transferMoney s dst x pin now).2.accounts[j]? = some B)
      ∧ ((transferMoney s dst x pin now).1 = Outcome.success → cur ≠ j →
          (transferMoney s dst x pin now).2.accounts[cur]?
              = some { A with balance := A.balance - x }
            ∧ (transferMoney s dst x pin now).2.accounts[j]?
              = some { B with balance := B.balance + x })
      ∧ ((transferMoney s dst x pin now).1 = Outcome.success → cur = j →
          (transferMoney s dst x pin now).2.accounts[cur]?
            = some { A with balance := A.balance - x + x })
      ∧ (∀ a b xn : Int, A.balance = Double.finite a → B.balance = Double.finite b →
          x = Double.finite xn → (Double.finite (a - xn)).Representable →
          (Double.finite (b + xn)).Representable →
            A.balance - x = Double.finite (a - xn) ∧ B.balance + x = Double.finite (b + xn)
              ∧ (A.balance - x).units + (B.balance + x).units
                = A.balance.units + B.balance.units)
      ∧ (∀ a xn : Int, A.balance = Double.finite a → x = Double.finite xn →
          (Double.finite a).Representable → (Double.finite (a - xn)).Representable →
            A.balance - x + x = A.balance) := by
  have h := transferMoney_spec s cur j A B dst x pin now hcur hA hfind hB
  have hacc := transfer_accounts64 x hA hB
  refine ⟨h.1, fun hrej => ?_, fun hok hne => ?_, fun hok heq => ?_, ?_, ?_⟩
  · rw [h.2.2 hrej]
    exact ⟨hA, hB⟩
  · rw [h.2.1 hok]
    exact hacc.1 hne
  · rw [h.2.1 hok]
    exact hacc.2 heq
  · intro a b xn ha hb hx hrepA hrepB
    rw [ha, hb, hx, Double.sub_exact hrepA, Double.add_exact hrepB]
    refine ⟨rfl, rfl, ?_⟩
    simp only [Double.units]
    omega
  · intro a xn ha hx hrepA hrep
    rw [ha, hx, Double.sub_exact hrep, Double.finite_add_finite, sub_add_cancel,
      Double.round_of_representable hrepA]

/-- Witness of `C4_transfer_rounded`: a transfer of 40.00 from a balance of
100.00 to an account holding 5.00 is accepted and leaves 60.00 and 45.00. -/
theorem C4_transfer_rounded_witness :
    (transferMoney (demoPair64 100 5) 654321 40 "1234" demoClock).1 = Outcome.success
      ∧ (transferMoney (demoPair64 100 5) 654321 40 "1234" demoClock).2.accounts[0]?
        = some { demoAccount64 223456 100 with balance := (demoAccount64 223456 100).balance - 40 }
      ∧ (transferMoney (demoPair64 100 5) 654321 40 "1234" demoClock).2.accounts[1]?
        = some { demoAccount64 654321 5 with balance := (demoAccount64 654321 5).balance + 40 }
      ∧ (demoAccount64 223456 100).balance - 40 = 60
      ∧ (demoAccount64 654321 5).balance + 40 = 45 :=
  have h := C4_transfer_rounded (demoPair64 100 5) 0 1 (demoAccount64 223456 100)
    (demoAccount64 654321 5) 654321 40 "1234" demoClock rfl rfl (by decide) rfl
  ⟨h.1.2 (by decide!), (h.2.2.1 (h.1.2 (by decide!)) (by decide)).1,
    (h.2.2.1 (h.1.2 (by decide!)) (by decide)).2, by decide!, by decide!⟩

/-! ### Deposit and withdrawal in turn -/

/-- C11 (counterexample): on an active account with balance 0.1 and the
correct PIN, `Deposit(0.2)` and then `Withdraw(0.2)` are both accepted, and
the balance left differs from 0.1. -/
theorem C11_roundtrip_changes_balance :
    (depositMoney (demoBank64 (Double.ofRat (1 / 10))) (Double.ofRat (2 / 10)) "1234"
        demoClock).1 = Outcome.success
      ∧ (withdrawMoney
          (depositMoney (demoBank64 (Double.ofRat (1 / 10))) (Double.ofRat (2 / 10)) "1234"
            demoClock).2
          (Double.ofRat (2 / 10)) "1234" demoClock).1 = Outcome.success
      ∧ (withdrawMoney
          (depositMoney (demoBank64 (Double.ofRat (1 / 10))) (Double.ofRat (2 / 10)) "1234"
            demoClock).2
          (Double.ofRat (2 / 10)) "1234" demoClock).2.accounts.map (fun a => a.balance)
          = [Double.ofRat (1 / 10) + Double.ofRat (2 / 10) - Double.ofRat (2 / 10)]
      ∧ Double.ofRat (1 / 10) + Double.ofRat (2 / 10) - Double.ofRat (2 / 10)
          ≠ Double.ofRat (1 / 10)
      ∧ (Double.ofRat (1 / 10)).units
          < (Double.ofRat (1 / 10) + Double.ofRat (2 / 10) - Double.ofRat (2 / 10)).units := by
  decide!

/-- C11 (amended): for every active logged-in account `A` with balance
`≥ 0`, the correct PIN and every finite amount `x > 0`, `Deposit(x)`
followed by `Withdraw(x)` both succeed and leave the balance
`A.balance + x - x` as binary64 computes it; the log ends with exactly the
two new records, "Deposit" with amount `+x` and then "Withdrawal" with
amount `-x`, both for `A`, whose amounts sum to zero; below the capacity the
log is the old log followed by these two records. When `A.balance + x` is
representable the account is exactly as it was, so its balance is the
original one. -/
theorem C11_deposit_withdraw_rounded (s : Bank) (cur : Nat) (A : Account) (xn : Int)
    (pin : String) (now now1 : Clock)
    (hcur : s.currentUser = some cur) (hA : s.accounts[cur]? = some A)
    (hactive : A.status = ACTIVE) (hpin : A.pin = pin) (hx : 0 < xn)
    (hrep : (Double.finite xn).Representable) (hbal : 0 ≤ A.balance) :
    (depositMoney s (Double.finite xn) pin now).1 = Outcome.success
      ∧ (withdrawMoney (depositMoney s (Double.finite xn) pin now).2 (Double.finite xn) pin
          now1).1 = Outcome.success
      ∧ (withdrawMoney (depositMoney s (Double.finite xn) pin now).2 (Double.finite xn) pin
          now1).2.accounts[cur]?
          = some { A with balance := A.balance + Double.finite xn - Double.finite xn }
      ∧ (withdrawMoney (depositMoney s (Double.finite xn) pin now).2 (Double.finite xn) pin
          now1).2.transactions
          = keptRecords
              (keptRecords s.transactions
                ++ [newTransaction A.accountNumber "Deposit" (Double.finite xn)
                  (A.balance + Double.finite xn) now])
            ++ [newTransaction A.accountNumber "Withdrawal" (-(Double.finite xn))
              (A.balance + Double.finite xn - Double.finite xn) now1]
      ∧ (newTransaction A.accountNumber "Deposit" (Double.finite xn)
            (A.balance + Double.finite xn) now).amount
          + (newTransaction A.accountNumber "Withdrawal" (-(Double.finite xn))
            (A.balance + Double.finite xn - Double.finite xn) now1).amount = 0
      ∧ (s.transactions.length + 2 ≤ MAX_TRANSACTIONS →
          (withdrawMoney (depositMoney s (Double.finite xn) pin now).2 (Double.finite xn) pin
            now1).2.transactions
            = s.transactions
              ++ [newTransaction A.accountNumber "Deposit" (Double.finite xn)
                  (A.balance + Double.finite xn) now,
                newTransaction A.accountNumber "Withdrawal" (-(Double.finite xn))
                  (A.balance + Double.finite xn - Double.finite xn) now1])
      ∧ (∀ a : Int, A.balance = Double.finite a → (Double.finite a).Representable →
          (Double.finite (a + xn)).Representable →
            (withdrawMoney (depositMoney s (Double.finite xn) pin now).2 (Double.finite xn)
              pin now1).2.accounts[cur]? = some A) := by
  have hd := depositMoney_spec s cur A (Double.finite xn) pin now hcur hA
  have hdep : (depositMoney s (Double.finite xn) pin now).1 = Outcome.success :=
    hd.1.2 ⟨Double.not_finite_le_zero hx, hpin, hactive⟩
  have hs1 := hd.2 hdep
  have hA1 : (depositMoney s (Double.finite xn) pin now).2.accounts[cur]?
      = some { A with balance := A.balance + Double.finite xn } := by
    rw [hs1]
    exact getElem?_set_of_getElem? hA
  have hcur1 : (depositMoney s (Double.finite xn) pin now).2.currentUser = some cur := by
    rw [hs1]
    exact hcur
  have hw := withdrawMoney_spec (depositMoney s (Double.finite xn) pin now).2 cur
    { A with balance := A.balance + Double.finite xn } (Double.finite xn) pin now1 hcur1 hA1
  have hwd : (withdrawMoney (depositMoney s (Double.finite xn) pin now).2 (Double.finite xn)
      pin now1).1 = Outcome.success :=
    hw.1.2 ⟨Double.not_finite_le_zero hx, hpin, hactive,
      Double.not_lt_of_le (Double.le_add_of_nonneg hbal hx hrep)⟩
  have hs2 := hw.2 hwd
  have hfinal : (withdrawMoney (depositMoney s (Double.finite xn) pin now).2 (Double.finite xn)
      pin now1).2.accounts[cur]?
      = some { A with balance := A.balance + Double.finite xn - Double.finite xn } := by
    rw [hs2]
    exact getElem?_set_of_getElem? hA1
  have hlog : (withdrawMoney (depositMoney s (Double.finite xn) pin now).2 (Double.finite xn)
      pin now1).2.transactions
      = keptRecords
          (keptRecords s.transactions
            ++ [newTransaction A.accountNumber "Deposit" (Double.finite xn)
              (A.balance + Double.finite xn) now])
        ++ [newTransaction A.accountNumber "Withdrawal" (-(Double.finite xn))
          (A.balance + Double.finite xn - Double.finite xn) now1] := by
    rw [hs2]
    simp only
    rw [addTransaction_eq64, hs1]
    simp only
    rw [addTransaction_eq64]
  refine ⟨hdep, hwd, hfinal, hlog, ?_, ?_, ?_⟩
  · exact Double.add_neg_self xn
  · intro hroom
    obtain ⟨kept, hkept, hk⟩ := two_records64 s.transactions
      (newTransaction A.accountNumber "Deposit" (Double.finite xn)
        (A.balance + Double.finite xn) now)
      (newTransaction A.accountNumber "Withdrawal" (-(Double.finite xn))
        (A.balance + Double.finite xn - Double.finite xn) now1)
    rw [hlog, hkept, hk hroom]
  · intro a ha hrepA hsum
    rw [hfinal]
    congr 1
    have hback : A.balance + Double.finite xn - Double.finite xn = A.balance := by
      rw [ha, Double.add_exact hsum, Double.finite_sub_finite, add_sub_cancel_right,
        Double.round_of_representable hrepA]
    exact account_restore64 A _ _ hback rfl

/-- Witness of `C11_deposit_withdraw_rounded`: Deposit 25.00 and Withdraw
25.00 on a balance of 100.00 are accepted and leave the account as it was. -/
theorem C11_deposit_withdraw_rounded_witness :
    (depositMoney (demoBank64 100) (Double.finite (25 * 2 ^ 1074)) "1234" demoClock).1
        = Outcome.success
      ∧ (withdrawMoney
          (depositMoney (demoBank64 100) (Double.finite (25 * 2 ^ 1074)) "1234" demoClock).2
          (Double.finite (25 * 2 ^ 1074)) "1234" demoClock).1 = Outcome.success
      ∧ (withdrawMoney
          (depositMoney (demoBank64 100) (Double.finite (25 * 2 ^ 1074)) "1234" demoClock).2
          (Double.finite (25 * 2 ^ 1074)) "1234" demoClock).2.accounts[0]?
          = some (demoAccount64 223456 100)
      ∧ Double.finite (25 * 2 ^ 1074) = 25 :=
  have h := C11_deposit_withdraw_rounded (demoBank64 100) 0 (demoAccount64 223456 100)
    (25 * 2 ^ 1074) "1234" demoClock demoClock rfl rfl rfl rfl (by decide!) (by decide!)
    (by decide!)
  ⟨h.1, h.2.1, h.2.2.2.2.2.2 (100 * 2 ^ 1074) (by decide!) (by decide!) (by decide!),
    by decide!⟩

/-! ### Loan repayment -/

theorem repayLoan_rejected64 (s : Bank) (x : Double) (pin : String) (now : Clock)
    (h : (repayLoan s x pin now).1 ≠ Outcome.success) : (repayLoan s x pin now).2 = s := by
  unfold repayLoan at h ⊢
  split
  · rfl
  · split
    · rfl
    · split_ifs <;> first | rfl | simp_all

/-- C12 (counterexample): with balance 550.00 and loan balance 500.00,
`RepayLoan(600.00)` with the correct PIN has `L > 0` and `x > L`, and it is
rejected for insufficient funds: nothing is repaid, the store is unchanged
and no record is written. -/
theorem C12_repayment_above_balance_rejected :
    (0 : Double) < 500 ∧ (500 : Double) < 600
      ∧ demoLoanBank64.accounts.map (fun a => (a.balance, a.loanBalance)) = [(550, 500)]
      ∧ (repayLoan demoLoanBank64 600 "1234" demoClock).1 = Outcome.insufficientFunds
      ∧ (repayLoan demoLoanBank64 600 "1234" demoClock).2 = demoLoanBank64
      ∧ (repayLoan demoLoanBank64 600 "1234" demoClock).2.transactions = [] := by
  decide!

/-- C12 (amended): `RepayLoan(x)` on the logged-in account `A` is accepted
exactly when `loanBalance ≤ 0` is false, `x ≤ 0` is false, the PIN is right
and `x > balance` is false, the funds test reading the entered amount, and a
rejected repayment leaves the store as it was. For
loan balance `L > 0` and `L < x ≤ balance` with the right PIN it is accepted
and repays `L`: the balance becomes the binary64 difference `balance - L`
(exactly `balance - L` when that is representable), the loan balance becomes
exactly 0 and the one record appended is "Loan Repayment" with amount `-L`
and the new balance. For every accepted repayment of a finite amount on a
loan balance that is not NaN, the resulting loan balance is `≥ 0`. -/
theorem C12_repayment_clamp_rounded (s : Bank) (cur : Nat) (A : Account) (x : Double)
    (pin : String) (now : Clock)
    (hcur : s.currentUser = some cur) (hA : s.accounts[cur]? = some A) :
    ((repayLoan s x pin now).1 = Outcome.success
        ↔ ¬ A.loanBalance ≤ 0 ∧ ¬ x ≤ 0 ∧ A.pin = pin ∧ ¬ x > A.balance)
      ∧ ((repayLoan s x pin now).1 ≠ Outcome.success → (repayLoan s x pin now).2 = s)
      ∧ (0 < A.loanBalance → A.loanBalance < x → x ≤ A.balance → A.pin = pin →
          (repayLoan s x pin now).1 = Outcome.success
            ∧ (repayLoan s x pin now).2.accounts[cur]?
              = some { A with balance := A.balance - A.loanBalance, loanBalance := 0 }
            ∧ (repayLoan s x pin now).2.transactions
              = keptRecords s.transactions
                ++ [newTransaction A.accountNumber "Loan Repayment" (-A.loanBalance)
                  (A.balance - A.loanBalance) now]
            ∧ (∀ b l : Int, A.balance = Double.finite b → A.loanBalance = Double.finite l →
                (Double.finite (b - l)).Representable →
                  A.balance - A.loanBalance = Double.finite (b - l)))
      ∧ (∀ (yn : Int) (pin1 : String) (now1 : Clock), A.loanBalance ≠ Double.nan →
          (repayLoan s (Double.finite yn) pin1 now1).1 = Outcome.success →
            ∃ A1 : Account,
              (repayLoan s (Double.finite yn) pin1 now1).2.accounts[cur]? = some A1
                ∧ 0 ≤ A1.loanBalance) := by
  have h := repayLoan_spec s cur A x pin now hcur hA
  refine ⟨h.1, repayLoan_rejected64 s x pin now, fun hL hx hfunds hpin => ?_,
    fun yn pin1 now1 hnan hok => ?_⟩
  · have hok : (repayLoan s x pin now).1 = Outcome.success :=
      h.1.2 ⟨Double.not_le_of_lt hL, Double.not_le_of_lt (Double.lt_of_lt_of_lt hL hx), hpin,
        Double.not_lt_of_le hfunds⟩
    have hclamp : (if x > A.loanBalance then A.loanBalance else x) = A.loanBalance :=
      if_pos hx
    have hzero : A.loanBalance - A.loanBalance = 0 := by
      cases hl : A.loanBalance with
      | finite l => exact Double.sub_self_finite l
      | posInf =>
        rw [hl] at hx
        exact absurd hx (Double.not_posInf_lt x)
      | negInf =>
        rw [hl] at hL
        exact absurd hL (by rw [Double.zero_eq]; decide)
      | nan =>
        rw [hl] at hL
        exact absurd hL (by rw [Double.zero_eq]; decide)
    have hs := h.2 hok
    rw [hclamp, hzero] at hs
    refine ⟨hok, ?_, ?_, ?_⟩
    · rw [hs]
      exact getElem?_set_of_getElem? hA
    · rw [hs]
      exact addTransaction_eq64 _ _ _ _ _ _
    · intro b l hb hl hrep
      rw [hb, hl, Double.sub_exact hrep]
  · have h1 := repayLoan_spec s cur A (Double.finite yn) pin1 now1 hcur hA
    obtain ⟨hL, hy, -, -⟩ := h1.1.1 hok
    have hacc : (repayLoan s (Double.finite yn) pin1 now1).2.accounts[cur]?
        = some
          { A with
            balance :=
              A.balance
                - (if Double.finite yn > A.loanBalance then A.loanBalance
                  else Double.finite yn)
            loanBalance :=
              A.loanBalance
                - (if Double.finite yn > A.loanBalance then A.loanBalance
                  else Double.finite yn) } := by
      rw [h1.2 hok]
      exact getElem?_set_of_getElem? hA
    refine ⟨_, hacc, ?_⟩
    · show (0 : Double)
        ≤ A.loanBalance
          - (if Double.finite yn > A.loanBalance then A.loanBalance else Double.finite yn)
      rw [Double.zero_eq, Double.finite_le_finite] at hy
      cases hl : A.loanBalance with
      | finite l =>
        rw [hl, Double.zero_eq, Double.finite_le_finite] at hL
        by_cases hgt : Double.finite yn > Double.finite l
        · rw [if_pos hgt, Double.sub_self_finite, Double.zero_eq, Double.finite_le_finite]
        · rw [if_neg hgt, Double.finite_sub_finite]
          have hnot : ¬ l < yn := fun hlt => hgt ((Double.finite_lt_finite l yn).2 hlt)
          exact Double.zero_le_round (by omega)
      | posInf =>
        have hgt : ¬ Double.finite yn > Double.posInf := Double.not_posInf_lt _
        rw [if_neg hgt, Double.zero_eq]
        rfl
      | negInf =>
        rw [hl] at hL
        exact absurd (by rw [Double.zero_eq]; rfl) hL
      | nan => exact absurd hl hnan

/-- Witness of `C12_repayment_clamp_rounded`: with balance 550.00 and loan
balance 500.00, `RepayLoan(520.00)` is accepted, leaves balance 50.00 and
loan balance 0.00 and records "Loan Repayment" with amount -500.00; the
loan balance left by the accepted `RepayLoan(200.00)` is `≥ 0`. -/
theorem C12_repayment_clamp_rounded_witness :
    (repayLoan demoLoanBank64 520 "1234" demoClock).1 = Outcome.success
      ∧ (repayLoan demoLoanBank64 520 "1234" demoClock).2.accounts.map
          (fun a => (a.balance, a.loanBalance)) = [(50, 0)]
      ∧ (repayLoan demoLoanBank64 520 "1234" demoClock).2.transactions.map
          (fun t => (t.description, t.amount, t.balanceAfter)) = [("Loan Repayment", -500, 50)]
      ∧ (repayLoan demoLoanBank64 (Double.finite (200 * 2 ^ 1074)) "1234" demoClock).1
          = Outcome.success
      ∧ ∃ A1 : Account,
          (repayLoan demoLoanBank64 (Double.finite (200 * 2 ^ 1074)) "1234"
            demoClock).2.accounts[0]? = some A1
            ∧ 0 ≤ A1.loanBalance :=
  have h := C12_repayment_clamp_rounded demoLoanBank64 0
    { demoAccount64 223456 550 with loanBalance := 500 } 520 "1234" demoClock rfl rfl
  ⟨(h.2.2.1 (by decide!) (by decide!) (by decide!) rfl).1, by decide!, by decide!, by decide!,
    h.2.2.2 (200 * 2 ^ 1074) "1234" demoClock (by decide!) (by decide!)⟩

/-! ### The records of accepted operations -/

/-- C17 (counterexample): on an active account with balance 0.43, no
investment and the correct PIN, `Invest(0.1)` and then
`DivestInvestment(0.1)` are both accepted, and the balance left differs
from 0.43. -/
theorem C17_roundtrip_changes_balance :
    (investMoney (demoBank64 (Double.ofRat (43 / 100))) (Double.ofRat (1 / 10)) "1234"
        demoClock).1 = Outcome.success
      ∧ (withdrawInvestment
          (investMoney (demoBank64 (Double.ofRat (43 / 100))) (Double.ofRat (1 / 10)) "1234"
            demoClock).2
          (Double.ofRat (1 / 10)) "1234" demoClock).1 = Outcome.success
      ∧ (withdrawInvestment
          (investMoney (demoBank64 (Double.ofRat (43 / 100))) (Double.ofRat (1 / 10)) "1234"
            demoClock).2
          (Double.ofRat (1 / 10)) "1234" demoClock).2.accounts.map
            (fun a => (a.balance, a.investmentBalance))
          = [(Double.ofRat (43 / 100) - Double.ofRat (1 / 10) + Double.ofRat (1 / 10), 0)]
      ∧ Double.ofRat (43 / 100) - Double.ofRat (1 / 10) + Double.ofRat (1 / 10)
          ≠ Double.ofRat (43 / 100)
      ∧ (Double.ofRat (43 / 100) - Double.ofRat (1 / 10) + Double.ofRat (1 / 10)).units
          < (Double.ofRat (43 / 100)).units := by
  decide!

/-- C17 (amended): for every active logged-in account `A` with investment
balance `≥ 0`, the correct PIN and every finite amount `x` with
`0 < x ≤ balance`, `Invest(x)` succeeds and stores the binary64 values
`balance - x` and `investmentBalance + x`, and a following
`DivestInvestment(x)` succeeds and stores `balance - x + x` and
`investmentBalance + x - x`. When `balance - x` and `investmentBalance + x`
are representable, `Invest(x)` stores exactly these and the divestment
restores the account, so both balances have their original values. -/
theorem C17_invest_divest_rounded (s : Bank) (cur : Nat) (A : Account) (xn : Int)
    (pin : String) (now now1 : Clock)
    (hcur : s.currentUser = some cur) (hA : s.accounts[cur]? = some A)
    (hactive : A.status = ACTIVE) (hpin : A.pin = pin) (hx : 0 < xn)
    (hrep : (Double.finite xn).Representable) (hle : Double.finite xn ≤ A.balance)
    (hinv : 0 ≤ A.investmentBalance) :
    (investMoney s (Double.finite xn) pin now).1 = Outcome.success
      ∧ (investMoney s (Double.finite xn) pin now).2.accounts[cur]?
          = some
            { A with
              balance := A.balance - Double.finite xn
              investmentBalance := A.investmentBalance + Double.finite xn }
      ∧ (withdrawInvestment (investMoney s (Double.finite xn) pin now).2 (Double.finite xn)
          pin now1).1 = Outcome.success
      ∧ (withdrawInvestment (investMoney s (Double.finite xn) pin now).2 (Double.finite xn)
          pin now1).2.accounts[cur]?
          = some
            { A with
              balance := A.balance - Double.finite xn + Double.finite xn
              investmentBalance :=
                A.investmentBalance + Double.finite xn - Double.finite xn }
      ∧ (∀ a i : Int, A.balance = Double.finite a → A.investmentBalance = Double.finite i →
          (Double.finite a).Representable → (Double.finite i).Representable →
          (Double.finite (a - xn)).Representable → (Double.finite (i + xn)).Representable →
            A.balance - Double.finite xn = Double.finite (a - xn)
              ∧ A.investmentBalance + Double.finite xn = Double.finite (i + xn)
              ∧ (withdrawInvestment (investMoney s (Double.finite xn) pin now).2
                  (Double.finite xn) pin now1).2.accounts[cur]? = some A) := by
  have hi := investMoney_spec s cur A (Double.finite xn) pin now hcur hA
  have hok : (investMoney s (Double.finite xn) pin now).1 = Outcome.success :=
    hi.1.2 ⟨Double.not_finite_le_zero hx, hpin, hactive, Double.not_lt_of_le hle⟩
  have hs1 := hi.2 hok
  have hA1 : (investMoney s (Double.finite xn) pin now).2.accounts[cur]?
      = some
        { A with
          balance := A.balance - Double.finite xn
          investmentBalance := A.investmentBalance + Double.finite xn } := by
    rw [hs1]
    exact getElem?_set_of_getElem? hA
  have hcur1 : (investMoney s (Double.finite xn) pin now).2.currentUser = some cur := by
    rw [hs1]
    exact hcur
  have hw := withdrawInvestment_spec (investMoney s (Double.finite xn) pin now).2 cur
    { A with
      balance := A.balance - Double.finite xn
      investmentBalance := A.investmentBalance + Double.finite xn }
    (Double.finite xn) pin now1 hcur1 hA1
  have hok2 : (withdrawInvestment (investMoney s (Double.finite xn) pin now).2
      (Double.finite xn) pin now1).1 = Outcome.success :=
    hw.1.2 ⟨Double.not_le_of_lt (Double.zero_lt_add hinv hx), Double.not_finite_le_zero hx,
      hpin, Double.not_lt_of_le (Double.le_add_of_nonneg hinv hx hrep)⟩
  have hs2 := hw.2 hok2
  have hfinal : (withdrawInvestment (investMoney s (Double.finite xn) pin now).2
      (Double.finite xn) pin now1).2.accounts[cur]?
      = some
        { A with
          balance := A.balance - Double.finite xn + Double.finite xn
          investmentBalance := A.investmentBalance + Double.finite xn - Double.finite xn } := by
    rw [hs2]
    exact getElem?_set_of_getElem? hA1
  refine ⟨hok, hA1, hok2, hfinal, ?_⟩
  intro a i ha hi0 hrepA hrepI hdiff hsum
  have h1 : A.balance - Double.finite xn = Double.finite (a - xn) := by
    rw [ha, Double.sub_exact hdiff]
  have h2 : A.investmentBalance + Double.finite xn = Double.finite (i + xn) := by
    rw [hi0, Double.add_exact hsum]
  refine ⟨h1, h2, ?_⟩
  rw [hfinal]
  congr 1
  have hb : A.balance - Double.finite xn + Double.finite xn = A.balance := by
    rw [h1, Double.finite_add_finite, sub_add_cancel, ha,
      Double.round_of_representable hrepA]
  have hv : A.investmentBalance + Double.finite xn - Double.finite xn
      = A.investmentBalance := by
    rw [h2, Double.finite_sub_finite, add_sub_cancel_right, hi0,
      Double.round_of_representable hrepI]
  exact account_restore64 A _ _ hb hv

/-- Witness of `C17_invest_divest_rounded`: Invest(30.00) on balance 60.00
and investment balance 0.00 gives 30.00 / 30.00, and DivestInvestment(30.00)
then gives 60.00 / 0.00. -/
theorem C17_invest_divest_rounded_witness :
    (investMoney (demoBank64 60) (Double.finite (30 * 2 ^ 1074)) "1234" demoClock).1
        = Outcome.success
      ∧ (investMoney (demoBank64 60) (Double.finite (30 * 2 ^ 1074)) "1234"
          demoClock).2.accounts.map (fun a => (a.balance, a.investmentBalance)) = [(30, 30)]
      ∧ (withdrawInvestment
          (investMoney (demoBank64 60) (Double.finite (30 * 2 ^ 1074)) "1234" demoClock).2
          (Double.finite (30 * 2 ^ 1074)) "1234" demoClock).1 = Outcome.success
      ∧ (withdrawInvestment
          (investMoney (demoBank64 60) (Double.finite (30 * 2 ^ 1074)) "1234" demoClock).2
          (Double.finite (30 * 2 ^ 1074)) "1234" demoClock).2.accounts[0]?
          = some (demoAccount64 223456 60)
      ∧ (demoAccount64 223456 60).balance = 60
      ∧ (demoAccount64 223456 60).investmentBalance = 0
      ∧ Double.finite (30 * 2 ^ 1074) = 30 :=
  have h := C17_invest_divest_rounded (demoBank64 60) 0 (demoAccount64 223456 60)
    (30 * 2 ^ 1074) "1234" demoClock demoClock rfl rfl rfl rfl (by decide!) (by decide!)
    (by decide!) (by decide!)
  ⟨h.1, by decide!, h.2.2.1,
    (h.2.2.2.2 (60 * 2 ^ 1074) 0 (by decide!) (by decide!) (by decide!) (by decide!)
      (by decide!) (by decide!)).2.2,
    by decide!, by decide!, by decide!⟩

end Binary64

end Fintech
